import Mathlib

/-!
# RIOT driver layer: SD-card SPI driver (`drivers/include/sdcard_spi.h`)

A shallow embedding of the protocol constants, the byte-classification macros and the
card-context data model of the SD-card SPI driver, followed by the properties proved
about them.

Conventions of the embedding:

* a C byte (`char` / `uint8_t`) is a `Nat` below `256`; wider machine integers are `Nat`
  reduced with an explicit `% 2 ^ w` where the C type would wrap; where the signedness
  of the byte type changes a result (a right shift of the value), the byte is the `Int`
  it has after integer promotion;
* a C macro that yields a truth value is a `Bool`-valued function;
* a bit-field `T f : w` is a `Nat` field, its width stated by the `valid` predicate of
  the structure.
-/

namespace sdcard_spi

/-! ## Definitions -/

/-! ### R1 response bits (sd spec. 7.3.2.1 Format R1) -/

def SD_POWERSEQUENCE_CLOCK_COUNT : Nat := 74

def SD_R1_RESPONSE_PARAM_ERROR : Nat := 0b01000000
def SD_R1_RESPONSE_ADDR_ERROR : Nat := 0b00100000
def SD_R1_RESPONSE_ERASE_SEQ_ERROR : Nat := 0b00010000
def SD_R1_RESPONSE_CMD_CRC_ERROR : Nat := 0b00001000
def SD_R1_RESPONSE_ILLEGAL_CMD_ERROR : Nat := 0b00000100
def SD_R1_RESPONSE_ERASE_RESET : Nat := 0b00000010
def SD_R1_RESPONSE_IN_IDLE_STATE : Nat := 0b00000001
def SD_INVALID_R1_RESPONSE : Nat := 0b10000000

/-- `IS_VALID_R1_BYTE(X)` is `(((X) >> 7) == 0)`. -/
def IS_VALID_R1_BYTE (x : Nat) : Bool := (x >>> 7) == 0

/-- `R1_HAS_PARAM_ERR(X)` is `((((X) &SD_R1_RESPONSE_PARAM_ERROR) != 0))`. -/
def R1_HAS_PARAM_ERR (x : Nat) : Bool := (x &&& SD_R1_RESPONSE_PARAM_ERROR) != 0

/-- `R1_HAS_ADDR_ERR(X)` is `((((X) &SD_R1_RESPONSE_ADDR_ERROR) != 0))`. -/
def R1_HAS_ADDR_ERR (x : Nat) : Bool := (x &&& SD_R1_RESPONSE_ADDR_ERROR) != 0

/-- `R1_HAS_ERASE_ERR(X)` is `((((X) &SD_R1_RESPONSE_ERASE_SEQ_ERROR) != 0))`. -/
def R1_HAS_ERASE_ERR (x : Nat) : Bool := (x &&& SD_R1_RESPONSE_ERASE_SEQ_ERROR) != 0

/-- `R1_HAS_CMD_CRC_ERR(X)` is `((((X) &SD_R1_RESPONSE_CMD_CRC_ERROR) != 0))`. -/
def R1_HAS_CMD_CRC_ERR (x : Nat) : Bool := (x &&& SD_R1_RESPONSE_CMD_CRC_ERROR) != 0

/-- `R1_HAS_ILL_CMD_ERR(X)` is `((((X) &SD_R1_RESPONSE_ILLEGAL_CMD_ERROR) != 0))`. -/
def R1_HAS_ILL_CMD_ERR (x : Nat) : Bool := (x &&& SD_R1_RESPONSE_ILLEGAL_CMD_ERROR) != 0

/-- `IS_R1_IDLE_BIT_SET(X)` is `(((X) &SD_R1_RESPONSE_IN_IDLE_STATE) != 0)`. -/
def IS_R1_IDLE_BIT_SET (x : Nat) : Bool := (x &&& SD_R1_RESPONSE_IN_IDLE_STATE) != 0

/-- `R1_HAS_ERROR(X)` is the `||` of the five error predicates, in the order of the
header: parameter, address, erase-sequence, command-CRC, illegal-command. -/
def R1_HAS_ERROR (x : Nat) : Bool :=
  R1_HAS_PARAM_ERR x || R1_HAS_ADDR_ERR x || R1_HAS_ERASE_ERR x || R1_HAS_CMD_CRC_ERR x
    || R1_HAS_ILL_CMD_ERR x

/-! ### Data response token (sd spec. 7.3.3.1) -/

/-- `DATA_RESPONSE_IS_VALID(X)` is `(((X) & 0b00010001) == 0b00000001)`. -/
def DATA_RESPONSE_IS_VALID (x : Nat) : Bool := (x &&& 0b00010001) == 0b00000001

/-- `DATA_RESPONSE_ACCEPTED(X)` is `(((X) & 0b00001110) == 0b00000100)`. -/
def DATA_RESPONSE_ACCEPTED (x : Nat) : Bool := (x &&& 0b00001110) == 0b00000100

/-- `DATA_RESPONSE_CRC_ERR(X)` is `(((X) & 0b00001110) == 0b00001010)`. -/
def DATA_RESPONSE_CRC_ERR (x : Nat) : Bool := (x &&& 0b00001110) == 0b00001010

/-- `DATA_RESPONSE_WRITE_ERR(X)` is `(((X) & 0b00001110) == 0b00001100)`. -/
def DATA_RESPONSE_WRITE_ERR (x : Nat) : Bool := (x &&& 0b00001110) == 0b00001100

/-! ### OCR register (sd spec. 5.1) -/

def OCR_VOLTAGE_3_2_TO_3_3 : Nat := 1 <<< 20
def OCR_VOLTAGE_3_3_TO_3_4 : Nat := 1 <<< 21
def OCR_CCS : Nat := 1 <<< 30

/-- `OCR_POWER_UP_STATUS` is `(1 << 31)`, evaluated in a 32-bit `int`: the shift reaches
the sign bit, the value is the one with the bit pattern `0x80000000`, `INT_MIN`. -/
def OCR_POWER_UP_STATUS : Int := (((1 <<< 31 : Nat) : Int) + 2 ^ 31) % 2 ^ 32 - 2 ^ 31

/-- `SYSTEM_VOLTAGE` is `(OCR_VOLTAGE_3_2_TO_3_3 | OCR_VOLTAGE_3_2_TO_3_3)`. -/
def SYSTEM_VOLTAGE : Nat := OCR_VOLTAGE_3_2_TO_3_3 ||| OCR_VOLTAGE_3_2_TO_3_3

/-! ### Commands (sd spec. 7.3.1.3) -/

def SD_CMD_PREFIX_MASK : Nat := 0b01000000

def SD_CMD_0_IDX : Nat := 0
def SD_CMD_1_IDX : Nat := 1
def SD_CMD_8_IDX : Nat := 8
def SD_CMD_9_IDX : Nat := 9
def SD_CMD_10_IDX : Nat := 10
def SD_CMD_12_IDX : Nat := 12
def SD_CMD_16_IDX : Nat := 16
def SD_CMD_17_IDX : Nat := 17
def SD_CMD_18_IDX : Nat := 18
def SD_CMD_24_IDX : Nat := 24
def SD_CMD_25_IDX : Nat := 25
def SD_CMD_41_IDX : Nat := 41
def SD_CMD_55_IDX : Nat := 55
def SD_CMD_58_IDX : Nat := 58
def SD_CMD_59_IDX : Nat := 59

/-- The command indices the header defines, `SD_CMD_0_IDX` to `SD_CMD_59_IDX`, in the
order of their `#define` lines. -/
def SD_CMD_IDX_all : List Nat :=
  [SD_CMD_0_IDX, SD_CMD_1_IDX, SD_CMD_8_IDX, SD_CMD_9_IDX, SD_CMD_10_IDX, SD_CMD_12_IDX,
   SD_CMD_16_IDX, SD_CMD_17_IDX, SD_CMD_18_IDX, SD_CMD_24_IDX, SD_CMD_25_IDX,
   SD_CMD_41_IDX, SD_CMD_55_IDX, SD_CMD_58_IDX, SD_CMD_59_IDX]

def SD_CMD_8_VHS_2_7_V_TO_3_6_V : Nat := 0b00000001
def SD_CMD_8_CHECK_PATTERN : Nat := 0b10110101
def SD_CMD_ARG_NONE : Nat := 0x00000000
def SD_ACMD_41_ARG_HC : Nat := 0x40000000
def SD_CMD_59_ARG_ENABLE : Nat := 0x00000001
def SD_CMD_59_ARG_DISABLE : Nat := 0x00000000

/-! ### Control tokens (sd spec. 7.3.3) -/

def SD_DATA_TOKEN_CMD_17_18_24 : Nat := 0b11111110
def SD_DATA_TOKEN_CMD_25 : Nat := 0b11111100
def SD_DATA_TOKEN_CMD_25_STOP : Nat := 0b11111101

def SD_SIZE_OF_CID_AND_CSD_REG : Nat := 16

/-- `SD_GET_CSD_STRUCTURE(CSD_RAW_DATA)` is `((CSD_RAW_DATA)[0] >> 6)`. The macro has no
type of its own: an element of the raw register is given by its value after integer
promotion, 0 to 255 when the element type is an unsigned byte and -128 to 127 when it is
a signed `char` (the byte type of this header is `char`). `>>` on a negative value is
the arithmetic shift. A missing byte 0 reads as `0`. -/
def SD_GET_CSD_STRUCTURE (csd_raw_data : List Int) : Int := csd_raw_data.headD 0 >>> 6

/-- The top two bits of byte 0 of a raw register, as a number from 0 (`00`) to 3 (`11`);
`b % 256` is the bit pattern of the element `b`, whatever its signedness. -/
def csd_top_two_bits (csd_raw_data : List Int) : Int := (csd_raw_data.headD 0 % 256) / 64

def SD_CSD_V1 : Int := 0
def SD_CSD_V2 : Int := 1
def SD_CSD_VUNSUPPORTED : Int := -1

/-! ### Retry counters -/

def R1_POLLING_RETRY_CNT : Int := 10000
def SD_DATA_TOKEN_RETRY_CNT : Int := 10000
def INIT_CMD_RETRY_CNT : Int := 1000
def INIT_CMD0_RETRY_CNT : Int := 3
def SD_WAIT_FOR_NOT_BUSY_CNT : Int := 10000
def SD_BLOCK_READ_CMD_RETRIES : Int := 10
def SD_BLOCK_WRITE_CMD_RETRIES : Int := 10

def SD_HC_FIXED_BLOCK_SIZE : Nat := 512
def SD_CSD_V2_C_SIZE_BLOCK_MULT : Nat := 1024

def SD_CARD_DUMMY_BYTE : Nat := 0xFF

def NUM_OF_SD_CARDS : Nat := 1

/-! ### Card context -/

inductive sd_version_t where
  | SD_V2
  | SD_V1
  | MMC_V3
  | SD_UNKNOWN
  deriving DecidableEq, Repr

inductive sd_rw_response_t where
  | SD_RW_OK
  | SD_RW_NO_TOKEN
  | SD_RW_TIMEOUT
  | SD_RW_RX_TX_ERROR
  | SD_RW_WRITE_ERROR
  | SD_RW_CRC_MISMATCH
  | SD_RW_NOT_SUPPORTED
  deriving DecidableEq, Repr

/-- The `cid_t` register: manufacturer id, OEM id, product name, revision, serial
number, manufacturing date, CRC7. -/
structure cid_t where
  MID : Nat := 0
  OID : List Nat := [0, 0]
  PNM : List Nat := [0, 0, 0, 0, 0]
  PRV : Nat := 0
  PSN : Nat := 0
  MDT : Nat := 0
  CRC : Nat := 0
  deriving DecidableEq, Repr

/-- The `csd_v1_t` register (CSD Version 1.0); every field is a bit-field whose width
is recorded in `csd_v1_t.valid`. -/
structure csd_v1_t where
  CSD_STRUCTURE : Nat := 0
  TAAC : Nat := 0
  NSAC : Nat := 0
  TRAN_SPEED : Nat := 0
  CCC : Nat := 0
  READ_BL_LEN : Nat := 0
  READ_BL_PARTIAL : Nat := 0
  WRITE_BLK_MISALIGN : Nat := 0
  READ_BLK_MISALIGN : Nat := 0
  DSR_IMP : Nat := 0
  C_SIZE : Nat := 0
  VDD_R_CURR_MIN : Nat := 0
  VDD_R_CURR_MAX : Nat := 0
  VDD_W_CURR_MIN : Nat := 0
  VDD_W_CURR_MAX : Nat := 0
  C_SIZE_MULT : Nat := 0
  ERASE_BLK_EN : Nat := 0
  SECTOR_SIZE : Nat := 0
  WP_GRP_SIZE : Nat := 0
  WP_GRP_ENABLE : Nat := 0
  R2W_FACTOR : Nat := 0
  WRITE_BL_LEN : Nat := 0
  WRITE_BL_PARTIAL : Nat := 0
  FILE_FORMAT_GRP : Nat := 0
  COPY : Nat := 0
  PERM_WRITE_PROTECT : Nat := 0
  TMP_WRITE_PROTECT : Nat := 0
  FILE_FORMAT : Nat := 0
  CRC : Nat := 0
  deriving DecidableEq, Repr

/-- The widths of the three bit-fields of `csd_v1_t` that enter the capacity:
`READ_BL_LEN : 4`, `C_SIZE : 12`, `C_SIZE_MULT : 3`. -/
def csd_v1_t.valid (c : csd_v1_t) : Prop :=
  c.READ_BL_LEN < 2 ^ 4 ∧ c.C_SIZE < 2 ^ 12 ∧ c.C_SIZE_MULT < 2 ^ 3

instance (c : csd_v1_t) : Decidable c.valid := by
  unfold csd_v1_t.valid; infer_instance

/-- The `csd_v2_t` register (CSD Version 2.0); every field is a bit-field, `C_SIZE`
being `uint32_t C_SIZE : 22`. -/
structure csd_v2_t where
  CSD_STRUCTURE : Nat := 0
  TAAC : Nat := 0
  NSAC : Nat := 0
  TRAN_SPEED : Nat := 0
  CCC : Nat := 0
  READ_BL_LEN : Nat := 0
  READ_BL_PARTIAL : Nat := 0
  WRITE_BLK_MISALIGN : Nat := 0
  READ_BLK_MISALIGN : Nat := 0
  DSR_IMP : Nat := 0
  C_SIZE : Nat := 0
  ERASE_BLK_EN : Nat := 0
  SECTOR_SIZE : Nat := 0
  WP_GRP_SIZE : Nat := 0
  WP_GRP_ENABLE : Nat := 0
  R2W_FACTOR : Nat := 0
  WRITE_BL_LEN : Nat := 0
  WRITE_BL_PARTIAL : Nat := 0
  FILE_FORMAT_GRP : Nat := 0
  COPY : Nat := 0
  PERM_WRITE_PROTECT : Nat := 0
  TMP_WRITE_PROTECT : Nat := 0
  FILE_FORMAT : Nat := 0
  CRC : Nat := 0
  deriving DecidableEq, Repr

/-- The width of the bit-field of `csd_v2_t` that enters the capacity: `C_SIZE : 22`. -/
def csd_v2_t.valid (c : csd_v2_t) : Prop := c.C_SIZE < 2 ^ 22

instance (c : csd_v2_t) : Decidable c.valid := by
  unfold csd_v2_t.valid; infer_instance

/-- The `csd_t` union of the two register layouts. Both views are kept side by side;
which one is meaningful is decided by `sd_card_t.csd_structure`, and nothing below reads
the view that was not selected. -/
structure csd_t where
  v1 : csd_v1_t := {}
  v2 : csd_v2_t := {}
  deriving DecidableEq, Repr

/-- The `sd_card_t` card context. `spi_t` and `gpio_t` come from the peripheral headers
and are kept as plain numbers. -/
structure sd_card_t where
  spi_dev : Nat := 0
  cs_pin : Nat := 0
  use_block_addr : Bool := false
  init_done : Bool := false
  card_type : sd_version_t := sd_version_t.SD_V2
  csd_structure : Int := 0
  cid : cid_t := {}
  csd : csd_t := {}
  deriving DecidableEq, Repr

/-- Modelled from the spec: the body of `sdcard_spi_get_capacity`, of which the header
only holds the declaration `uint64_t sdcard_spi_get_capacity(sd_card_t *card)`. The
register decoder branches on the CSD version: V1 gives
`(C_SIZE + 1) << (C_SIZE_MULT + 2) << READ_BL_LEN` bytes, V2 gives `(C_SIZE + 1)` units
of 512 KiB, written with the header's constants as
`(C_SIZE+1) * SD_CSD_V2_C_SIZE_BLOCK_MULT * BLOCK_LEN`, and an unsupported structure
code gives zero. The result is a `uint64_t`, hence the reduction modulo `2 ^ 64`. -/
def sdcard_spi_get_capacity (card : sd_card_t) : Nat :=
  if card.csd_structure = SD_CSD_V1 then
    (((card.csd.v1.C_SIZE + 1) <<< (card.csd.v1.C_SIZE_MULT + 2))
      <<< card.csd.v1.READ_BL_LEN) % 2 ^ 64
  else if card.csd_structure = SD_CSD_V2 then
    ((card.csd.v2.C_SIZE + 1) * SD_CSD_V2_C_SIZE_BLOCK_MULT * SD_HC_FIXED_BLOCK_SIZE)
      % 2 ^ 64
  else
    0

/-- Modelled from the spec: the body of `sdcard_spi_get_sector_count`, of which the
header only holds the declaration `uint32_t sdcard_spi_get_sector_count(sd_card_t *card)`.
It returns the capacity divided by the fixed 512-byte sector size; the result is a
`uint32_t`, hence the reduction modulo `2 ^ 32`. -/
def sdcard_spi_get_sector_count (card : sd_card_t) : Nat :=
  (sdcard_spi_get_capacity card / SD_HC_FIXED_BLOCK_SIZE) % 2 ^ 32

/-! ### Command dispatcher

The bodies of `sdcard_spi_send_cmd` and `sdcard_spi_send_acmd` are in `sdcard_spi.c`,
which is not among the sources; the header holds their declarations and documentation.
-/

/-- Modelled from the spec: the SPI/GPIO collaborator as the command dispatcher sees it.
`dev` is the state of bus and card, `sent` lists the command attempts made so far as
(command index, argument), oldest first; it is what a test double counts. -/
structure sd_bus_t (σ : Type) where
  dev : σ
  sent : List (Nat × Nat)

/-- Modelled from the spec: what the dispatcher is run against. `attempt dev idx arg` is
one try of a command (wait for not-busy, transmit the frame, poll for the R1 byte) and
yields the R1 byte, or `SD_INVALID_R1_RESPONSE`, with the next state. The spec does not
say which R1 values end the retries, so that test, `succeeded`, is a parameter too. -/
structure dispatcher_env (σ : Type) where
  attempt : σ → Nat → Nat → Nat × σ
  succeeded : Nat → Bool

/-- Modelled from the spec: one try of a command, recorded in `sent`. -/
def send_cmd_attempt {σ : Type} (env : dispatcher_env σ) (bus : sd_bus_t σ)
    (sd_cmd_idx argument : Nat) : Nat × sd_bus_t σ :=
  ((env.attempt bus.dev sd_cmd_idx argument).1,
   { dev := (env.attempt bus.dev sd_cmd_idx argument).2,
     sent := bus.sent ++ [(sd_cmd_idx, argument)] })

/-- Modelled from the spec: the retry loop of `sdcard_spi_send_cmd`, with `max_retry`
as documented in the header ("Use 0 to try only once, -1 to try forever, or n to retry n
times"). `try_cnt` counts the retries used; `fuel` bounds the number of tries the
evaluation may make, and the result is `none` when the loop is still running after
them. -/
def send_cmd_loop {σ : Type} (env : dispatcher_env σ) (sd_cmd_idx argument : Nat)
    (max_retry : Int) : Nat → Nat → sd_bus_t σ → Option (Nat × sd_bus_t σ)
  | 0, _, _ => none
  | fuel + 1, try_cnt, bus =>
    if env.succeeded (send_cmd_attempt env bus sd_cmd_idx argument).1 then
      some (send_cmd_attempt env bus sd_cmd_idx argument)
    else if max_retry < 0 ∨ (try_cnt : Int) < max_retry then
      send_cmd_loop env sd_cmd_idx argument max_retry fuel (try_cnt + 1)
        (send_cmd_attempt env bus sd_cmd_idx argument).2
    else
      some (send_cmd_attempt env bus sd_cmd_idx argument)

/-- Modelled from the spec: `sdcard_spi_send_cmd(card, sd_cmd_idx, argument, max_retry)`,
the retry loop started with no retry used. The bus handle of the card context is
`bus`. -/
def sdcard_spi_send_cmd {σ : Type} (env : dispatcher_env σ) (fuel : Nat) (bus : sd_bus_t σ)
    (sd_cmd_idx argument : Nat) (max_retry : Int) : Option (Nat × sd_bus_t σ) :=
  send_cmd_loop env sd_cmd_idx argument max_retry fuel 0 bus

/-- Modelled from the spec: `sdcard_spi_send_acmd`, "`send_command(CMD55, 0)`
immediately followed by `send_command(target_index, argument)`; if CMD55 itself fails,
the dispatcher does not attempt the second command and surfaces CMD55's result". CMD55
has failed when its result is not a valid R1 byte or has an R1 error bit set. The
`max_retry` of the call is handed to both commands. -/
def sdcard_spi_send_acmd {σ : Type} (env : dispatcher_env σ) (fuel : Nat) (bus : sd_bus_t σ)
    (sd_cmd_idx argument : Nat) (max_retry : Int) : Option (Nat × sd_bus_t σ) :=
  match sdcard_spi_send_cmd env fuel bus SD_CMD_55_IDX SD_CMD_ARG_NONE max_retry with
  | none => none
  | some r =>
    if IS_VALID_R1_BYTE r.1 && !R1_HAS_ERROR r.1 then
      sdcard_spi_send_cmd env fuel r.2 sd_cmd_idx argument max_retry
    else
      some r

/-- The state of bus and card after `j` tries of the same command in a row. -/
def dev_after {σ : Type} (env : dispatcher_env σ) (sd_cmd_idx argument : Nat) :
    Nat → σ → σ
  | 0, dev => dev
  | j + 1, dev => dev_after env sd_cmd_idx argument j (env.attempt dev sd_cmd_idx argument).2

/-- The R1 result of try number `j` (counted from 0) of the same command in a row. -/
def r1_of_try {σ : Type} (env : dispatcher_env σ) (sd_cmd_idx argument : Nat) (dev : σ)
    (j : Nat) : Nat :=
  (env.attempt (dev_after env sd_cmd_idx argument j dev) sd_cmd_idx argument).1

/-- A card for exercising the dispatcher: its state counts the tries made; it answers
the first `fails` tries of any command with `0xFF` and every later one with `r1`. A try
has succeeded when the R1 byte is valid and has no error bit. -/
def flaky_card (fails r1 : Nat) : dispatcher_env Nat where
  attempt := fun dev _ _ => (if dev < fails then SD_CARD_DUMMY_BYTE else r1, dev + 1)
  succeeded := fun x => IS_VALID_R1_BYTE x && !R1_HAS_ERROR x

/-! ### Block transfer engine

The bodies of `sdcard_spi_read_blocks` and `sdcard_spi_write_blocks` are in
`sdcard_spi.c`, which is not among the sources.
-/

/-- Modelled from the spec: the address translation of the block transfer engine, "if
`addressing_mode == BYTE`, the block address is multiplied by `block_size` before being
placed in the command argument; if `BLOCK`, the block index is used directly". -/
def block_cmd_argument (card : sd_card_t) (blockaddr blocksize : Int) : Int :=
  if card.use_block_addr then blockaddr else blockaddr * blocksize

/-- Modelled from the spec: what the block transfer engine is run against.
`read_block dev arg i` is the complete transfer of block number `i` of an operation
whose command argument is `arg` (command with its retries, start token, payload, CRC16
check) and yields the status of that block with the next state of bus, card and buffer;
`write_block` is the same for writes (data token, payload, CRC16, data-response token,
busy wait). -/
structure block_engine_env (σ : Type) where
  read_block : σ → Int → Nat → sd_rw_response_t × σ
  write_block : σ → Int → Nat → sd_rw_response_t × σ

/-- Modelled from the spec: the block loop of the engine. Blocks are transferred in
order; the first block whose status is not `SD_RW_OK` stops the operation, and the
result is the count of blocks completed before it with that status. `done` is the number
of blocks completed so far. -/
def transfer_blocks {σ : Type} (xfer : σ → Int → Nat → sd_rw_response_t × σ) (arg : Int) :
    Nat → Nat → σ → Nat × sd_rw_response_t × σ
  | 0, done, dev => (done, sd_rw_response_t.SD_RW_OK, dev)
  | n + 1, done, dev =>
    if (xfer dev arg done).1 = sd_rw_response_t.SD_RW_OK then
      transfer_blocks xfer arg n (done + 1) (xfer dev arg done).2
    else
      (done, (xfer dev arg done).1, (xfer dev arg done).2)

/-- Modelled from the spec: `sdcard_spi_read_blocks(card, blockaddr, data, blocksize,
nblocks, state)`; the result is the returned count, the `state` written, and the state
of bus, card and buffer. A block size other than 512 is reported as
`SD_RW_NOT_SUPPORTED` before anything is transferred. -/
def sdcard_spi_read_blocks {σ : Type} (env : block_engine_env σ) (card : sd_card_t)
    (dev : σ) (blockaddr blocksize nblocks : Int) : Int × sd_rw_response_t × σ :=
  if blocksize ≠ SD_HC_FIXED_BLOCK_SIZE then
    (0, sd_rw_response_t.SD_RW_NOT_SUPPORTED, dev)
  else
    let r := transfer_blocks env.read_block (block_cmd_argument card blockaddr blocksize)
      nblocks.toNat 0 dev
    ((r.1 : Int), r.2.1, r.2.2)

/-- Modelled from the spec: `sdcard_spi_write_blocks(card, blockaddr, data, blocksize,
nblocks, state)`, the same engine run with the write of a block. -/
def sdcard_spi_write_blocks {σ : Type} (env : block_engine_env σ) (card : sd_card_t)
    (dev : σ) (blockaddr blocksize nblocks : Int) : Int × sd_rw_response_t × σ :=
  if blocksize ≠ SD_HC_FIXED_BLOCK_SIZE then
    (0, sd_rw_response_t.SD_RW_NOT_SUPPORTED, dev)
  else
    let r := transfer_blocks env.write_block (block_cmd_argument card blockaddr blocksize)
      nblocks.toNat 0 dev
    ((r.1 : Int), r.2.1, r.2.2)

/-- The state after the first `i` blocks of an operation have been transferred. -/
def dev_after_blocks {σ : Type} (xfer : σ → Int → Nat → sd_rw_response_t × σ) (arg : Int) :
    Nat → σ → σ
  | 0, dev => dev
  | i + 1, dev => (xfer (dev_after_blocks xfer arg i dev) arg i).2

/-- The status of block number `i` of an operation, transferred after the blocks
before it. -/
def status_of_block {σ : Type} (xfer : σ → Int → Nat → sd_rw_response_t × σ) (arg : Int)
    (dev : σ) (i : Nat) : sd_rw_response_t :=
  (xfer (dev_after_blocks xfer arg i dev) arg i).1

/-- The return contract of a block operation, for a result `r` = (count, state, ...):
the count lies between 0 and `nblocks`, every block before it was transferred with
status `SD_RW_OK`, and when the count is below `nblocks` the state is not `SD_RW_OK` and
is the reason the block at the count stopped the operation: `SD_RW_NOT_SUPPORTED` for a
block size other than 512 (nothing transferred), else the status of that block. -/
def rw_return_contract {σ : Type} (xfer : σ → Int → Nat → sd_rw_response_t × σ)
    (arg : Int) (dev : σ) (blocksize nblocks : Int) (r : Int × sd_rw_response_t × σ) :
    Prop :=
  0 ≤ r.1 ∧ r.1 ≤ nblocks ∧
  (∀ i : Nat, (i : Int) < r.1 →
    blocksize = 512 ∧ status_of_block xfer arg dev i = sd_rw_response_t.SD_RW_OK) ∧
  (r.1 < nblocks →
    r.2.1 ≠ sd_rw_response_t.SD_RW_OK ∧
    ((blocksize ≠ 512 ∧ r.1 = 0 ∧ r.2.1 = sd_rw_response_t.SD_RW_NOT_SUPPORTED) ∨
     (blocksize = 512 ∧ r.2.1 = status_of_block xfer arg dev r.1.toNat)))

/-- A card for exercising the block engine: its state counts the blocks handled; reads
fail at block 2 with a CRC mismatch, writes fail at block 1 with a write error. -/
def faulty_blocks : block_engine_env Nat where
  read_block := fun dev _ i =>
    (if i = 2 then sd_rw_response_t.SD_RW_CRC_MISMATCH else sd_rw_response_t.SD_RW_OK,
      dev + 1)
  write_block := fun dev _ i =>
    (if i = 1 then sd_rw_response_t.SD_RW_WRITE_ERROR else sd_rw_response_t.SD_RW_OK,
      dev + 1)

/-- A card context holding a version 1 CSD with the given capacity fields, every other
field zero. -/
def card_v1 (c_size c_size_mult read_bl_len : Nat) : sd_card_t :=
  { init_done := true, card_type := sd_version_t.SD_V1, csd_structure := SD_CSD_V1,
    csd := { v1 := { C_SIZE := c_size, C_SIZE_MULT := c_size_mult,
                     READ_BL_LEN := read_bl_len } } }

/-- A card context holding a version 2 CSD with the given `C_SIZE`, every other field
zero. -/
def card_v2 (c_size : Nat) : sd_card_t :=
  { use_block_addr := true, init_done := true, card_type := sd_version_t.SD_V2,
    csd_structure := SD_CSD_V2, csd := { v2 := { CSD_STRUCTURE := 1, C_SIZE := c_size } } }

end sdcard_spi

/-!
# IRQ interface (`core/include/irq.h`) and its Cortex-M and MSP430 implementations

`irq.h` declares `irq_disable`, `irq_enable`, `irq_restore`, `irq_is_enabled` and
`irq_is_in`. Each implementation is embedded over the part of the CPU state it touches;
a function that changes the CPU state returns the new state next to its C return value.
-/

namespace cortexm_common

/-- The part of a Cortex-M core that `irq_arch.c` touches: the PRIMASK register, of
which only the least significant bit is used (`irq_is_enabled` reads `PRIMASK == 0` as
"enabled"), and the IPSR register. -/
structure cpu_t where
  PRIMASK : Nat := 0
  IPSR : Nat := 0
  deriving DecidableEq, Repr

/-- PRIMASK holds a single bit. -/
def cpu_t.valid (c : cpu_t) : Prop := c.PRIMASK < 2

instance (c : cpu_t) : Decidable c.valid := by
  unfold cpu_t.valid; infer_instance

/-- Modelled from the spec: the intrinsic `__get_PRIMASK` is not among the sources; it
is the read of the status register that `irq.h` speaks of, here PRIMASK. -/
def __get_PRIMASK (c : cpu_t) : Nat := c.PRIMASK

/-- Modelled from the spec: the intrinsic `__set_PRIMASK` is not among the sources; it
writes PRIMASK, of which only the least significant bit exists. -/
def __set_PRIMASK (c : cpu_t) (priMask : Nat) : cpu_t := { c with PRIMASK := priMask % 2 }

/-- Modelled from the spec: the intrinsic `__disable_irq` is not among the sources; in
the words of `irq.h` it "sets the IRQ disable bit in the status register". -/
def __disable_irq (c : cpu_t) : cpu_t := { c with PRIMASK := 1 }

/-- Modelled from the spec: the intrinsic `__enable_irq` is not among the sources; in
the words of `irq.h` it "clears the IRQ disable bit in the status register". -/
def __enable_irq (c : cpu_t) : cpu_t := { c with PRIMASK := 0 }

/-- Modelled from the spec: the intrinsic `__get_IPSR` is not among the sources; it
reads the IPSR register. -/
def __get_IPSR (c : cpu_t) : Nat := c.IPSR

/-- `irq_disable`: `mask = __get_PRIMASK(); __disable_irq(); return mask;`. -/
def irq_disable (c : cpu_t) : Nat × cpu_t :=
  let mask := __get_PRIMASK c
  let c1 := __disable_irq c
  (mask, c1)

/-- `irq_enable`: `__enable_irq(); return __get_PRIMASK();`. -/
def irq_enable (c : cpu_t) : Nat × cpu_t :=
  let c1 := __enable_irq c
  (__get_PRIMASK c1, c1)

/-- `irq_restore`: `__set_PRIMASK(state);`. -/
def irq_restore (c : cpu_t) (state : Nat) : cpu_t := __set_PRIMASK c state

/-- `irq_is_enabled`: `return (__get_PRIMASK() == 0);`. -/
def irq_is_enabled (c : cpu_t) : Nat := if __get_PRIMASK c == 0 then 1 else 0

/-- `irq_is_in`: `return (__get_IPSR() & 0xFF);`. -/
def irq_is_in (c : cpu_t) : Nat := __get_IPSR c &&& 0xFF

end cortexm_common

namespace msp430_common

/-- Modelled from the spec: `GIE` is declared in the MSP430 device headers, not among
the sources; it is the general interrupt enable bit, bit 3 of the status register. -/
def GIE : Nat := 0x0008

/-- The part of the MSP430 state that `irq.c` touches: the 16-bit status register `r2`
and the global `__irq_is_in`. -/
structure cpu_t where
  r2 : Nat := 0
  __irq_is_in : Int := 0
  deriving DecidableEq, Repr

/-- The status register holds 16 bits. -/
def cpu_t.valid (c : cpu_t) : Prop := c.r2 < 2 ^ 16

instance (c : cpu_t) : Decidable c.valid := by
  unfold cpu_t.valid; infer_instance

/-- Modelled from the spec: `__disable_irq` is not among the sources; it clears the
`GIE` bit of the status register and leaves the other bits. -/
def __disable_irq (c : cpu_t) : cpu_t := { c with r2 := c.r2 &&& (0xFFFF ^^^ GIE) }

/-- Modelled from the spec: `__enable_irq` is not among the sources; it sets the `GIE`
bit of the status register and leaves the other bits. -/
def __enable_irq (c : cpu_t) : cpu_t := { c with r2 := c.r2 ||| GIE }

/-- `irq_is_enabled`: `mov.w r2,%0` reads the status register into `state`, and
`return (state & GIE);`. -/
def irq_is_enabled (c : cpu_t) : Nat :=
  let state := c.r2
  state &&& GIE

/-- `irq_disable`: `state = irq_is_enabled(); if (state) __disable_irq();
return (unsigned)state;`. -/
def irq_disable (c : cpu_t) : Nat × cpu_t :=
  let state := irq_is_enabled c
  let c1 := if state != 0 then __disable_irq c else c
  (state, c1)

/-- `irq_enable`: `state = irq_is_enabled(); if (!state) __enable_irq();
return (unsigned)state;`. -/
def irq_enable (c : cpu_t) : Nat × cpu_t :=
  let state := irq_is_enabled c
  let c1 := if state == 0 then __enable_irq c else c
  (state, c1)

/-- `irq_restore`: `if (state) __enable_irq();`. -/
def irq_restore (c : cpu_t) (state : Nat) : cpu_t :=
  if state != 0 then __enable_irq c else c

/-- `irq_is_in`: `return __irq_is_in;`. -/
def irq_is_in (c : cpu_t) : Int := c.__irq_is_in

end msp430_common

/-!
# NimBLE network interface (`pkg/nimble/netif/nimble_netif.c`)

`nimble_netif_accept_stop` is embedded over an abstract state of the BLE stack; the
functions of `nimble_netif_conn.h` and of the NimBLE host it calls are parameters.
-/

namespace nimble_netif

/-! Return codes of `nimble_netif.h`. -/

def NIMBLE_NETIF_NOTCONN : Int := -1
def NIMBLE_NETIF_DEVERR : Int := -2
def NIMBLE_NETIF_BUSY : Int := -3
def NIMBLE_NETIF_NOMEM : Int := -4
def NIMBLE_NETIF_ALREADY : Int := -6
def NIMBLE_NETIF_NOTFOUND : Int := -7

end nimble_netif

/-!
# DFPlayer Mini driver (`drivers/dfplayer/dfplayer.c`)

The receive state machine `_on_rx_byte` is embedded over the fields of `dfplayer_t` it
reads and writes. `dfplayer.h` is not among the sources; the layout of the packet buffer
follows the `POS_*` offsets of `dfplayer.c`.
-/

namespace dfplayer

def STARTUP_RETRY_CNT : Nat := 3

def POS_START : Nat := 0
def POS_VER : Nat := 1
def POS_LEN : Nat := 2
def POS_CMD : Nat := 3
def POS_FEEDBACK : Nat := 4
def POS_PARAM : Nat := 5
def POS_CSUM : Nat := 7
def POS_END : Nat := 9

def START_BYTE : Nat := 0x7e
def END_BYTE : Nat := 0xef
def VERSION : Nat := 0xff
def LEN : Nat := 0x06

def CMD_INIT_PARAMS : Nat := 0x3f
def CMD_REPLY : Nat := 0x41
def CMD_INVALID : Nat := 0xff

def FLAG_RESP : Nat := 1 <<< 7
def EVENT_USED : Nat := 0x80

/-- Modelled from the spec: `DFPLAYER_PKTLEN` is declared in `dfplayer.h`, not among the
sources; `_cmd` builds its packet of ten bytes `{ START_BYTE, ..., END_BYTE }` in a
buffer of that length and `_dump` prints `pkt[0]` to `pkt[9]`. -/
def DFPLAYER_PKTLEN : Nat := 10

/-- The fields of `dev->async_event` that `_on_rx_byte` sets. -/
structure dfplayer_event_t where
  flags : Nat
  code : Nat
  param : Nat
  deriving DecidableEq, Repr

/-- The fields of `dfplayer_t` that `_on_rx_byte` touches. `rx_buf` is the `raw` view of
the packet buffer; `pkt.cmd`, `pkt.param` and `pkt.csum` are the bytes at `POS_CMD`,
`POS_PARAM` and `POS_CSUM`. Three fields record effects: `waiter_flags` the thread
flags set on `dev->waiter`, `posted` the events posted to the queue `_q`, and
`raw_writes` the indices at which `rx_buf.raw` was written, oldest first. -/
structure dfplayer_t where
  rx_pos : Nat
  rx_buf : List Nat
  exp_code : Nat
  rx_data : Nat
  async_event : dfplayer_event_t
  waiter_flags : Nat
  posted : List dfplayer_event_t
  raw_writes : List Nat
  deriving DecidableEq, Repr

/-- `_csum`: the 16-bit sum of `buf[POS_VER]` to `buf[POS_CSUM - 1]`, negated. -/
def _csum (buf : List Nat) : Nat :=
  let res := (List.range' POS_VER (POS_CSUM - POS_VER)).foldl
    (fun res pos => (res + buf.getD pos 0) % 2 ^ 16) 0
  (2 ^ 16 - res) % 2 ^ 16

/-- Modelled from the spec: `byteorder_bebuftohs` of `byteorder.h`, not among the
sources; it reads a 16-bit value stored most significant byte first, here at offset
`i` of `buf`. -/
def byteorder_bebuftohs (buf : List Nat) (i : Nat) : Nat :=
  buf.getD i 0 * 256 + buf.getD (i + 1) 0

/-- `_on_rx_byte(arg, data)` with `dev = arg`.

    if ((dev->rx_pos == POS_START) && (data == START_BYTE)) { ++dev->rx_pos; return; }
    else if (dev->rx_pos == POS_END) {
        if (data == END_BYTE) {
            csum = byteorder_bebuftohs(dev->rx_buf.pkt.csum);
            if (csum == _csum(dev->rx_buf.raw)) {
                code = dev->rx_buf.pkt.cmd; param = byteorder_bebuftohs(...pkt.param);
                if (code == dev->exp_code) { dev->rx_data = param; thread_flags_set(...); }
                dev->async_event.flags = EVENT_USED; .code = code; .param = param;
                event_post(&_q, &dev->async_event.super);
            }
        }
    }
    else { dev->rx_buf.raw[dev->rx_pos++] = data; return; }
    dev->rx_pos = 0;
-/
def _on_rx_byte (dev : dfplayer_t) (data : Nat) : dfplayer_t :=
  if dev.rx_pos = POS_START ∧ data = START_BYTE then
    { dev with rx_pos := dev.rx_pos + 1 }
  else if dev.rx_pos = POS_END then
    let dev1 :=
      if data = END_BYTE then
        let csum := byteorder_bebuftohs dev.rx_buf POS_CSUM
        if csum = _csum dev.rx_buf then
          let code := dev.rx_buf.getD POS_CMD 0
          let param := byteorder_bebuftohs dev.rx_buf POS_PARAM
          let dev2 :=
            if code = dev.exp_code then
              { dev with rx_data := param, waiter_flags := dev.waiter_flags ||| FLAG_RESP }
            else dev
          { dev2 with async_event := ⟨EVENT_USED, code, param⟩,
                      posted := dev2.posted ++ [⟨EVENT_USED, code, param⟩] }
        else dev
      else dev
    { dev1 with rx_pos := 0 }
  else
    { dev with rx_buf := dev.rx_buf.set dev.rx_pos data,
               rx_pos := dev.rx_pos + 1,
               raw_writes := dev.raw_writes ++ [dev.rx_pos] }

/-- The receive state that `dfplayer_init` sets up: `rx_pos = 0` and
`exp_code = CMD_INVALID`, with an all-zero packet buffer and no effect recorded yet. -/
def dev_after_init : dfplayer_t :=
  { rx_pos := 0, rx_buf := List.replicate DFPLAYER_PKTLEN 0, exp_code := CMD_INVALID,
    rx_data := 0, async_event := ⟨0, 0, 0⟩, waiter_flags := 0, posted := [],
    raw_writes := [] }

end dfplayer

/-!
# DS18 temperature sensor driver (`drivers/ds18/ds18.c`)

`ds18_read` is embedded over an abstract state of the one-wire bus. `int` has 32 bits,
as on the Cortex-M targets; a narrowing conversion to a signed type wraps modulo
`2 ^ w`.
-/

namespace ds18

/-- Modelled from the spec: `DS18_OK` is declared in `ds18.h`, not among the sources;
it is the return value for success, 0. -/
def DS18_OK : Int := 0

/-- Modelled from the spec: `DS18_ERROR` is declared in `ds18.h`, not among the sources;
it is the return value for failure, -1. -/
def DS18_ERROR : Int := -1

/-- Modelled from the spec: `DS18_CMD_SKIPROM` is declared in `ds18_internal.h`, not
among the sources; the one-wire "skip ROM" command byte. -/
def DS18_CMD_SKIPROM : Nat := 0xCC

/-- Modelled from the spec: `DS18_CMD_RSCRATCHPAD` is declared in `ds18_internal.h`,
not among the sources; the "read scratchpad" command byte. -/
def DS18_CMD_RSCRATCHPAD : Nat := 0xBE

/-- Conversion of an integer to `int16_t`. -/
def to_int16 (x : Int) : Int := (x + 2 ^ 15) % 2 ^ 16 - 2 ^ 15

/-- Conversion of an integer to `int32_t`. -/
def to_int32 (x : Int) : Int := (x + 2 ^ 31) % 2 ^ 32 - 2 ^ 31

/-- The one-wire primitives of `ds18.c`. Their bodies consist of GPIO and timer calls
only (`gpio_init`, `gpio_clear`, `gpio_read`, `xtimer_usleep`, `xtimer_now_usec`), so
they are parameters over the state `σ` of pin and bus: `ds18_reset` yields the presence
value it returns, `ds18_write_bit` takes the bit, `ds18_read_bit` yields its return
value and the bit it stored. -/
structure onewire_env (σ : Type) where
  ds18_reset : σ → Int × σ
  ds18_write_bit : σ → Nat → σ
  ds18_read_bit : σ → (Int × Nat) × σ

/-- The loop of `ds18_read_byte`, at bit number `i` with `n` bits to go:
`if (ds18_read_bit(dev, &bit) == DS18_OK) { *byte |= (bit << i); } else { return
DS18_ERROR; }`, and `return DS18_OK` after the last bit. -/
def ds18_read_byte_loop {σ : Type} (env : onewire_env σ) :
    Nat → Nat → Nat → σ → Int × Nat × σ
  | 0, _, byte, s => (DS18_OK, byte, s)
  | n + 1, i, byte, s =>
    if (env.ds18_read_bit s).1.1 = DS18_OK then
      ds18_read_byte_loop env n (i + 1)
        ((byte ||| ((env.ds18_read_bit s).1.2 <<< i)) % 256) (env.ds18_read_bit s).2
    else
      (DS18_ERROR, byte, (env.ds18_read_bit s).2)

/-- `ds18_read_byte`: `*byte = 0;` and the loop over the bits 0 to 7. The result is the
return value, the byte and the state. -/
def ds18_read_byte {σ : Type} (env : onewire_env σ) (s : σ) : Int × Nat × σ :=
  ds18_read_byte_loop env 8 0 0 s

/-- `ds18_write_byte`: `ds18_write_bit(dev, byte & (0x01 << i))` for `i` from 0 to 7. -/
def ds18_write_byte {σ : Type} (env : onewire_env σ) (s : σ) (byte : Nat) : σ :=
  (List.range 8).foldl (fun s i => env.ds18_write_bit s (byte &&& (0x01 <<< i))) s

/-- The conversion at the end of `ds18_read`:
`int32_t measurement = ((int32_t)(b2 << 8 | b1) * 625);` and
`*temperature = (int16_t)(measurement / 100);`. The bytes are `uint8_t`, promoted to
`int`, so `b2 << 8 | b1` is a value from 0 to 65535; `/` truncates toward zero. -/
def ds18_temperature (b1 b2 : Nat) : Int :=
  let measurement : Int := to_int32 (to_int32 ((b2 <<< 8 ||| b1 : Nat) : Int) * 625)
  to_int16 (Int.tdiv measurement 100)

/-- `ds18_read(dev, temperature)`; the result is the return value, the value stored in
`*temperature` (`none` when nothing is stored) and the state. -/
def ds18_read {σ : Type} (env : onewire_env σ) (s : σ) : Int × Option Int × σ :=
  let res := env.ds18_reset s
  if res.1 ≠ 0 then
    (DS18_ERROR, none, res.2)
  else
    let s1 := ds18_write_byte env res.2 DS18_CMD_SKIPROM
    let s2 := ds18_write_byte env s1 DS18_CMD_RSCRATCHPAD
    let r1 := ds18_read_byte env s2
    if r1.1 ≠ DS18_OK then
      (DS18_ERROR, none, r1.2.2)
    else
      let r2 := ds18_read_byte env r1.2.2
      if r2.1 ≠ DS18_OK then
        (DS18_ERROR, none, r2.2.2)
      else
        (DS18_OK, some (ds18_temperature r1.2.1 r2.2.1), r2.2.2)

/-- The signed 16-bit reading of the sensor, `int16(b2 * 256 + b1)`, in 1/16 degree
Celsius. -/
def ds18_raw (b1 b2 : Nat) : Int := to_int16 ((b2 * 256 + b1 : Nat) : Int)

/-- A sensor for exercising the driver: it is present, ignores what is written, and
its state is the list of bits it will deliver, each read without error. -/
def sensor_env : onewire_env (List Nat) where
  ds18_reset := fun s => (0, s)
  ds18_write_bit := fun s _ => s
  ds18_read_bit := fun s => ((DS18_OK, s.headD 1), s.tail)

/-- The bits of the two scratchpad bytes `b1` and `b2`, least significant bit first, as
the sensor sends them. -/
def scratchpad_bits (b1 b2 : Nat) : List Nat :=
  (List.range 8).map (fun i => (b1 >>> i) % 2) ++ (List.range 8).map (fun i => (b2 >>> i) % 2)

end ds18

/-!
# Gorm GATT server (`sys/net/gorm/gatt/gatt_server.c`)

The request handlers are embedded over a PDU buffer and an abstract attribute table.
The headers `net/ble.h`, `net/gorm/util.h`, `net/gorm/uuid.h`, `net/gorm/gatt.h` and
`net/gorm/gatt/tab.h` are not among the sources: the constants get the values of the
Bluetooth Core Specification, the table functions are parameters, and the types follow
the fields that `gatt_server.c` uses. A handler yields `none` where the C code would
dereference a NULL pointer.
-/

namespace gorm_gatt

/-! Attribute protocol opcodes. -/

/-- Modelled from the spec: `BLE_ATT_ERROR_RESP` of `net/ble.h` (not among the sources),
ATT opcode 0x01. -/
def BLE_ATT_ERROR_RESP : Nat := 0x01
/-- Modelled from the spec: `BLE_ATT_MTU_REQ` of `net/ble.h`, ATT opcode 0x02. -/
def BLE_ATT_MTU_REQ : Nat := 0x02
/-- Modelled from the spec: `BLE_ATT_MTU_RESP` of `net/ble.h`, ATT opcode 0x03. -/
def BLE_ATT_MTU_RESP : Nat := 0x03
/-- Modelled from the spec: `BLE_ATT_FIND_INFO_REQ` of `net/ble.h`, ATT opcode 0x04. -/
def BLE_ATT_FIND_INFO_REQ : Nat := 0x04
/-- Modelled from the spec: `BLE_ATT_FIND_INFO_RESP` of `net/ble.h`, ATT opcode 0x05. -/
def BLE_ATT_FIND_INFO_RESP : Nat := 0x05
/-- Modelled from the spec: `BLE_ATT_FIND_BY_VAL_REQ` of `net/ble.h`, ATT opcode 0x06. -/
def BLE_ATT_FIND_BY_VAL_REQ : Nat := 0x06
/-- Modelled from the spec: `BLE_ATT_FIND_BY_VAL_RESP` of `net/ble.h`, ATT opcode 0x07. -/
def BLE_ATT_FIND_BY_VAL_RESP : Nat := 0x07
/-- Modelled from the spec: `BLE_ATT_READ_BY_TYPE_REQ` of `net/ble.h`, ATT opcode 0x08. -/
def BLE_ATT_READ_BY_TYPE_REQ : Nat := 0x08
/-- Modelled from the spec: `BLE_ATT_READ_BY_TYPE_RESP` of `net/ble.h`, ATT opcode
0x09. -/
def BLE_ATT_READ_BY_TYPE_RESP : Nat := 0x09
/-- Modelled from the spec: `BLE_ATT_READ_REQ` of `net/ble.h`, ATT opcode 0x0a. -/
def BLE_ATT_READ_REQ : Nat := 0x0a
/-- Modelled from the spec: `BLE_ATT_READ_RESP` of `net/ble.h`, ATT opcode 0x0b. -/
def BLE_ATT_READ_RESP : Nat := 0x0b
/-- Modelled from the spec: `BLE_ATT_READ_BLOB_REQ` of `net/ble.h`, ATT opcode 0x0c. -/
def BLE_ATT_READ_BLOB_REQ : Nat := 0x0c
/-- Modelled from the spec: `BLE_ATT_READ_MUL_REQ` of `net/ble.h`, ATT opcode 0x0e. -/
def BLE_ATT_READ_MUL_REQ : Nat := 0x0e
/-- Modelled from the spec: `BLE_ATT_READ_BY_GROUP_TYPE_REQ` of `net/ble.h`, ATT opcode
0x10. -/
def BLE_ATT_READ_BY_GROUP_TYPE_REQ : Nat := 0x10
/-- Modelled from the spec: `BLE_ATT_READ_BY_GROUP_TYPE_RESP` of `net/ble.h`, ATT opcode
0x11. -/
def BLE_ATT_READ_BY_GROUP_TYPE_RESP : Nat := 0x11
/-- Modelled from the spec: `BLE_ATT_WRITE_REQ` of `net/ble.h`, ATT opcode 0x12. -/
def BLE_ATT_WRITE_REQ : Nat := 0x12
/-- Modelled from the spec: `BLE_ATT_WRITE_RESP` of `net/ble.h`, ATT opcode 0x13. -/
def BLE_ATT_WRITE_RESP : Nat := 0x13
/-- Modelled from the spec: `BLE_ATT_PREP_WRITE_REQ` of `net/ble.h`, ATT opcode 0x16. -/
def BLE_ATT_PREP_WRITE_REQ : Nat := 0x16
/-- Modelled from the spec: `BLE_ATT_EXEC_WRITE_REQ` of `net/ble.h`, ATT opcode 0x18. -/
def BLE_ATT_EXEC_WRITE_REQ : Nat := 0x18
/-- Modelled from the spec: `BLE_ATT_VAL_NOTIFICATION` of `net/ble.h`, ATT opcode
0x1b. -/
def BLE_ATT_VAL_NOTIFICATION : Nat := 0x1b
/-- Modelled from the spec: `BLE_ATT_VAL_INDICATION` of `net/ble.h`, ATT opcode 0x1d. -/
def BLE_ATT_VAL_INDICATION : Nat := 0x1d
/-- Modelled from the spec: `BLE_ATT_VAL_CONFIRMATION` of `net/ble.h`, ATT opcode
0x1e. -/
def BLE_ATT_VAL_CONFIRMATION : Nat := 0x1e
/-- Modelled from the spec: `BLE_ATT_WRITE_COMMAND` of `net/ble.h`, ATT opcode 0x52. -/
def BLE_ATT_WRITE_COMMAND : Nat := 0x52
/-- Modelled from the spec: `BLE_ATT_SIGNED_WRITE_CMD` of `net/ble.h`, ATT opcode
0xd2. -/
def BLE_ATT_SIGNED_WRITE_CMD : Nat := 0xd2

/-! Attribute protocol error codes, permissions, declarations. -/

/-- Modelled from the spec: `BLE_ATT_READ_NOT_PERMITTED` of `net/ble.h`, ATT error code
0x02. -/
def BLE_ATT_READ_NOT_PERMITTED : Nat := 0x02
/-- Modelled from the spec: `BLE_ATT_WRITE_NOT_PERMITTED` of `net/ble.h`, ATT error code
0x03. -/
def BLE_ATT_WRITE_NOT_PERMITTED : Nat := 0x03
/-- Modelled from the spec: `BLE_ATT_INVALID_PDU` of `net/ble.h`, ATT error code 0x04. -/
def BLE_ATT_INVALID_PDU : Nat := 0x04
/-- Modelled from the spec: `BLE_ATT_REQUEST_NOT_SUP` of `net/ble.h`, ATT error code
0x06. -/
def BLE_ATT_REQUEST_NOT_SUP : Nat := 0x06
/-- Modelled from the spec: `BLE_ATT_ATTRIBUTE_NOT_FOUND` of `net/ble.h`, ATT error code
0x0a. -/
def BLE_ATT_ATTRIBUTE_NOT_FOUND : Nat := 0x0a
/-- Modelled from the spec: `BLE_ATT_READ` of `net/ble.h`, the "read" bit of the
characteristic properties, 0x02. -/
def BLE_ATT_READ : Nat := 0x02
/-- Modelled from the spec: `BLE_ATT_WRITE` of `net/ble.h`, the "write" bit of the
characteristic properties, 0x08. -/
def BLE_ATT_WRITE : Nat := 0x08
/-- Modelled from the spec: `BLE_ATT_FORMAT_U16` of `net/ble.h`, the format of a find
information response with 16-bit UUIDs, 0x01. -/
def BLE_ATT_FORMAT_U16 : Nat := 0x01
/-- Modelled from the spec: `BLE_DECL_PRI_SERVICE` of `net/ble.h`, the primary service
declaration, 0x2800 (see the comment in `_on_read_by_group_type_req`). -/
def BLE_DECL_PRI_SERVICE : Nat := 0x2800
/-- Modelled from the spec: `BLE_DECL_CHAR` of `net/ble.h`, the characteristic
declaration, 0x2803. -/
def BLE_DECL_CHAR : Nat := 0x2803
/-- Modelled from the spec: `GORM_GATT_DEFAULT_MTU` of `net/gorm/gatt.h` (not among the
sources), the default ATT MTU of Bluetooth LE, 23 bytes. -/
def GORM_GATT_DEFAULT_MTU : Nat := 23

/-! PDU buffer. -/

/-- The memory that `data` points to, as a map from index to byte. -/
abbrev buf_t := Nat → Nat

/-- The buffer holding the bytes of `l` from index 0, zero elsewhere. -/
def buf_of_list (l : List Nat) : buf_t := fun i => l.getD i 0

/-- `buf[i] = v` for a byte `v`. -/
def buf_write (data : buf_t) (i v : Nat) : buf_t := fun j => if j = i then v else data j

/-- Writing the bytes `l` from index `pos` on. -/
def buf_write_list (data : buf_t) (pos : Nat) (l : List Nat) : buf_t :=
  fun j => if pos ≤ j ∧ j < pos + l.length then l.getD (j - pos) 0 else data j

/-- The first `n` bytes of the buffer. -/
def buf_take (data : buf_t) (n : Nat) : List Nat := (List.range n).map data

/-- Modelled from the spec: `gorm_util_htoles` of `net/gorm/util.h` (not among the
sources) stores a 16-bit value least significant byte first, here at `data[pos]`. -/
def gorm_util_htoles (data : buf_t) (pos v : Nat) : buf_t :=
  buf_write (buf_write data pos (v % 256)) (pos + 1) (v / 256 % 256)

/-- Modelled from the spec: `gorm_util_letohs` of `net/gorm/util.h` (not among the
sources) reads a 16-bit value stored least significant byte first, here at
`data[pos]`. -/
def gorm_util_letohs (data : buf_t) (pos : Nat) : Nat :=
  data pos % 256 + 256 * (data (pos + 1) % 256)

/-! UUIDs and attribute table. -/

/-- Modelled from the spec: `gorm_uuid_t` of `net/gorm/uuid.h` (not among the sources):
a 16-bit UUID `uuid16` and, for a 128-bit UUID, the 16 bytes of its base; `base` is
`none` (NULL) for a 16-bit UUID. -/
structure gorm_uuid_t where
  base : Option (List Nat)
  uuid16 : Nat

/-- Modelled from the spec: `gorm_uuid_len` of `net/gorm/uuid.h`: the length of the
UUID in a PDU, 2 bytes for a 16-bit and 16 bytes for a 128-bit UUID (see "16- or
128-bit UUID" in `_on_read_by_type_req`). -/
def gorm_uuid_len (uuid : gorm_uuid_t) : Nat := if uuid.base.isSome then 16 else 2

/-- The bytes of a UUID in a PDU: `uuid16` least significant byte first, for a 128-bit
UUID placed at the bytes 12 and 13 of the base. -/
def gorm_uuid_bytes (uuid : gorm_uuid_t) : List Nat :=
  match uuid.base with
  | none => [uuid.uuid16 % 256, uuid.uuid16 / 256 % 256]
  | some b =>
    (List.range 16).map (fun i =>
      if i = 12 then uuid.uuid16 % 256 else if i = 13 then uuid.uuid16 / 256 % 256
      else b.getD i 0)

/-- Modelled from the spec: `gorm_uuid_to_buf` of `net/gorm/uuid.h`: writes the UUID to
the buffer, here at `data[pos]`, and returns the number of bytes written,
`gorm_uuid_len`. -/
def gorm_uuid_to_buf (data : buf_t) (pos : Nat) (uuid : gorm_uuid_t) : buf_t × Nat :=
  (buf_write_list data pos (gorm_uuid_bytes uuid), gorm_uuid_len uuid)

/-- Modelled from the spec: `gorm_uuid_from_buf` of `net/gorm/uuid.h`: reads a UUID of
`len` bytes from the buffer, here at `data[pos]`; 2 bytes give a 16-bit UUID, any other
length a 128-bit one. -/
def gorm_uuid_from_buf (data : buf_t) (pos len : Nat) : gorm_uuid_t :=
  if len = 2 then { base := none, uuid16 := gorm_util_letohs data pos }
  else { base := some ((List.range 16).map (fun i => data (pos + i))),
         uuid16 := gorm_util_letohs data (pos + 12) }

/-- Modelled from the spec: `gorm_uuid_eq16` of `net/gorm/uuid.h`: the UUID is the
16-bit UUID `v`. -/
def gorm_uuid_eq16 (uuid : gorm_uuid_t) (v : Nat) : Bool :=
  uuid.base.isNone && uuid.uuid16 == v

/-- The two methods a characteristic callback is called with. -/
inductive gorm_gatt_method where
  | GORM_GATT_READ
  | GORM_GATT_WRITE

/-- A descriptor as `gatt_server.c` uses it: its `type`, and its callback
`cb(d, buf, buf_len)`, given by the bytes it stores in `buf` for a buffer of `buf_len`
bytes; the callback returns their number. -/
structure gorm_gatt_desc_t where
  type : Nat
  cb : Nat → List Nat

/-- A characteristic as `gatt_server.c` uses it: `type`, `perm`, and the callback
`cb(c, method, buf, buf_len)`, `none` for the NULL callback that ends a `chars` array.
The callback is given by the bytes it stores in `buf` (for a write: the bytes it is
handed, and it stores nothing); it returns their number. -/
structure gorm_gatt_char_t where
  type : gorm_uuid_t
  perm : Nat
  cb : Option (gorm_gatt_method → List Nat → Nat → List Nat)

/-- A service: its UUID and its characteristics; the `chars` array ends with an entry
whose callback is NULL, which is what reading at or past the end of the list gives. -/
structure gorm_gatt_service_t where
  uuid : gorm_uuid_t
  chars : List gorm_gatt_char_t

/-- A table entry: `handle` and `service`; the `next` pointer is kept outside, an entry
pointer being the list of the entry and its successors (the empty list is NULL). -/
structure gorm_gatt_entry_t where
  handle : Nat
  service : gorm_gatt_service_t

/-- The table iterator `gorm_gatt_tab_iter_t`: `handle`, and the pointers `e`, `c`, `d`
to entry, characteristic and descriptor, `none` for NULL. -/
structure gorm_gatt_tab_iter_t where
  handle : Nat
  e : Option gorm_gatt_entry_t
  c : Option gorm_gatt_char_t
  d : Option gorm_gatt_desc_t

/-- The functions of `net/gorm/gatt/tab.h` that `gatt_server.c` calls. None is among
the sources, so they are parameters. -/
structure gatt_tab_env where
  gorm_gatt_tab_find_service : Nat → List gorm_gatt_entry_t
  gorm_gatt_tab_get_service : Nat → Option gorm_gatt_entry_t
  gorm_gatt_tab_get_end_handle : gorm_gatt_entry_t → Nat
  gorm_gatt_tab_find_char : gorm_gatt_entry_t → Nat → Int
  gorm_gatt_tab_get_char_handle : gorm_gatt_entry_t → Nat → Nat
  gorm_gatt_tab_get_val_handle : gorm_gatt_entry_t → Nat → Nat
  gorm_gatt_tab_get_by_handle : gorm_gatt_tab_iter_t → gorm_gatt_tab_iter_t
  gorm_gatt_tab_is_char_val : gorm_gatt_tab_iter_t → Bool
  gorm_gatt_tab_is_decl : gorm_gatt_tab_iter_t → Bool
  gorm_gatt_tab_get_next : gorm_gatt_tab_iter_t → gorm_gatt_tab_iter_t
  gorm_gatt_tab_get_service_by_uuid : gorm_gatt_tab_iter_t → gorm_uuid_t → gorm_gatt_tab_iter_t

/-- What a handler leaves behind: the buffer, the length handed to `gorm_l2cap_reply`
(`none` when no reply is sent), and whether `gorm_pdupool_return` was called. -/
structure gatt_out where
  data : buf_t
  reply_len : Option Nat
  returned : Bool

/-- The bytes sent as reply, if any. -/
def gatt_out.reply (r : gatt_out) : Option (List Nat) :=
  r.reply_len.map (buf_take r.data)

/-- The array entry `chars[num]` of a service. -/
def chars_at (service : gorm_gatt_service_t) (num : Nat) : gorm_gatt_char_t :=
  service.chars.getD num { type := { base := none, uuid16 := 0 }, perm := 0, cb := none }

/-! Request handlers. -/

/-- `_write_service_attr_data(buf, entry)` with `buf = &data[pos]`; the result is the
buffer and the returned size:
`gorm_util_htoles(buf, entry->handle); gorm_util_htoles(&buf[2],
gorm_gatt_tab_get_end_handle(entry)); return gorm_uuid_to_buf(&buf[4],
&entry->service->uuid) + 4;`. -/
def _write_service_attr_data (env : gatt_tab_env) (data : buf_t) (pos : Nat)
    (entry : gorm_gatt_entry_t) : buf_t × Nat :=
  let d1 := gorm_util_htoles data pos entry.handle
  let d2 := gorm_util_htoles d1 (pos + 2) (env.gorm_gatt_tab_get_end_handle entry)
  let w := gorm_uuid_to_buf d2 (pos + 4) entry.service.uuid
  (w.1, w.2 + 4)

/-- `_write_char_attr_data(buf, entry, num)` with `buf = &data[pos]`; the result is the
buffer and the returned size. -/
def _write_char_attr_data (env : gatt_tab_env) (data : buf_t) (pos : Nat)
    (entry : gorm_gatt_entry_t) (num : Nat) : buf_t × Nat :=
  let c := chars_at entry.service num
  let d1 := gorm_util_htoles data pos (env.gorm_gatt_tab_get_char_handle entry num)
  let d2 := buf_write d1 (pos + 2) c.perm
  let d3 := gorm_util_htoles d2 (pos + 3) (env.gorm_gatt_tab_get_val_handle entry num)
  let w := gorm_uuid_to_buf d3 (pos + 5) c.type
  (w.1, w.2 + 5)

/-- `_error(con, buf, data, handle, code)`:
`data[1] = data[0]; /* copy request opcode */ data[0] = BLE_ATT_ERROR_RESP;
gorm_util_htoles(&data[2], handle); data[4] = code; gorm_l2cap_reply(con, buf, 5);`. -/
def _error (data : buf_t) (handle code : Nat) : gatt_out :=
  let d1 := buf_write data 1 (data 0)
  let d2 := buf_write d1 0 BLE_ATT_ERROR_RESP
  let d3 := gorm_util_htoles d2 2 handle
  let d4 := buf_write d3 4 code
  { data := d4, reply_len := some 5, returned := false }

/-- `_on_mtu_req`. -/
def _on_mtu_req (data : buf_t) (len : Nat) : Option gatt_out :=
  if len ≠ 3 then
    some (_error data 0 BLE_ATT_INVALID_PDU)
  else
    let d1 := buf_write data 0 BLE_ATT_MTU_RESP
    let d2 := gorm_util_htoles d1 1 GORM_GATT_DEFAULT_MTU
    some { data := d2, reply_len := some 3, returned := false }

/-- The loop of `_on_read_by_group_type_req`, `entry` being the list of the entry and
its successors:
`while (entry && (entry->handle <= end_handle) && (limit > 0)) { pos +=
_write_service_attr_data(&data[pos], entry); entry = entry->next; --limit; }`. -/
def read_by_group_type_loop (env : gatt_tab_env) (end_handle : Nat) :
    List gorm_gatt_entry_t → Nat → buf_t → Nat → buf_t × Nat
  | [], _, data, pos => (data, pos)
  | entry :: next, limit, data, pos =>
    if entry.handle ≤ end_handle ∧ limit > 0 then
      read_by_group_type_loop env end_handle next (limit - 1)
        (_write_service_attr_data env data pos entry).1
        (pos + (_write_service_attr_data env data pos entry).2)
    else
      (data, pos)

/-- `_on_read_by_group_type_req`. -/
def _on_read_by_group_type_req (env : gatt_tab_env) (data : buf_t) (len : Nat) :
    Option gatt_out :=
  if len ≠ 7 then
    some (_error data 0 BLE_ATT_INVALID_PDU)
  else
    let start_handle := gorm_util_letohs data 1
    let end_handle := gorm_util_letohs data 3
    let uuid := gorm_uuid_from_buf data 5 2
    if uuid.uuid16 ≠ BLE_DECL_PRI_SERVICE then
      some (_error data start_handle BLE_ATT_ATTRIBUTE_NOT_FOUND)
    else
      match env.gorm_gatt_tab_find_service start_handle with
      | [] => some (_error data start_handle BLE_ATT_ATTRIBUTE_NOT_FOUND)
      | entry :: next =>
        let d0 := buf_write data 0 BLE_ATT_READ_BY_GROUP_TYPE_RESP
        let d1 := buf_write d0 1 ((gorm_uuid_len entry.service.uuid + 4) % 256)
        let w := _write_service_attr_data env d1 2 entry
        let pos := w.2 + 2
        let limit := (GORM_GATT_DEFAULT_MTU - pos) / (w.1 1)
        let r := read_by_group_type_loop env end_handle next limit w.1 pos
        some { data := r.1, reply_len := some r.2, returned := false }

/-- The loop of `_on_read_by_type_req`:
`while ((entry->service->chars[c].cb != NULL) && (gorm_uuid_len(&...chars[c].type) ==
ulen) && (limit > 0) && (gorm_gatt_tab_get_char_handle(entry, (uint16_t)c) <=
end_handle)) { pos += _write_char_attr_data(&data[pos], entry, c); c++; limit--; }`. -/
def read_by_type_loop (env : gatt_tab_env) (entry : gorm_gatt_entry_t)
    (ulen end_handle : Nat) : Nat → Nat → buf_t → Nat → buf_t × Nat
  | 0, _, data, pos => (data, pos)
  | limit + 1, c, data, pos =>
    if (chars_at entry.service c).cb.isSome ∧
        gorm_uuid_len (chars_at entry.service c).type = ulen ∧
        env.gorm_gatt_tab_get_char_handle entry (c % 2 ^ 16) ≤ end_handle then
      read_by_type_loop env entry ulen end_handle limit (c + 1)
        (_write_char_attr_data env data pos entry c).1
        (pos + (_write_char_attr_data env data pos entry c).2)
    else
      (data, pos)

/-- `_on_read_by_type_req`. -/
def _on_read_by_type_req (env : gatt_tab_env) (data : buf_t) (len : Nat) :
    Option gatt_out :=
  if len ≠ 7 ∧ len ≠ 21 then
    some (_error data 0 BLE_ATT_INVALID_PDU)
  else
    let start_handle := gorm_util_letohs data 1
    let end_handle := gorm_util_letohs data 3
    let uuid := gorm_uuid_from_buf data 5 (len - 5)
    if gorm_uuid_eq16 uuid BLE_DECL_CHAR then
      match env.gorm_gatt_tab_get_service start_handle with
      | none => some (_error data start_handle BLE_ATT_ATTRIBUTE_NOT_FOUND)
      | some entry =>
        let c := env.gorm_gatt_tab_find_char entry start_handle
        if c < 0 then
          some (_error data start_handle BLE_ATT_ATTRIBUTE_NOT_FOUND)
        else
          let ulen := gorm_uuid_len (chars_at entry.service c.toNat).type
          let d0 := buf_write data 0 BLE_ATT_READ_BY_TYPE_RESP
          let d1 := buf_write d0 1 ((ulen + 5) % 256)
          let w := _write_char_attr_data env d1 2 entry c.toNat
          let pos := w.2 + 2
          let limit := ((GORM_GATT_DEFAULT_MTU - 2) / (w.1 1) + 2 ^ 32 - 1) % 2 ^ 32
          let r := read_by_type_loop env entry ulen end_handle limit (c.toNat + 1) w.1 pos
          some { data := r.1, reply_len := some r.2, returned := false }
    else
      some (_error data start_handle BLE_ATT_ATTRIBUTE_NOT_FOUND)

/-- `_on_read_req`. `data[0] = BLE_ATT_READ_RESP;` comes right after the table lookup,
before the three cases. -/
def _on_read_req (env : gatt_tab_env) (data : buf_t) (len : Nat) : Option gatt_out :=
  if len ≠ 3 then
    some (_error data 0 BLE_ATT_INVALID_PDU)
  else
    let iter := env.gorm_gatt_tab_get_by_handle
      { handle := gorm_util_letohs data 1, e := none, c := none, d := none }
    let d0 := buf_write data 0 BLE_ATT_READ_RESP
    if env.gorm_gatt_tab_is_char_val iter then
      match iter.c with
      | none => none
      | some c =>
        if c.perm &&& BLE_ATT_READ ≠ 0 then
          match c.cb with
          | none => none
          | some cb =>
            let out := cb gorm_gatt_method.GORM_GATT_READ [] (GORM_GATT_DEFAULT_MTU - 1)
            some { data := buf_write_list d0 1 out, reply_len := some (out.length + 1),
                   returned := false }
        else
          some (_error d0 iter.handle BLE_ATT_READ_NOT_PERMITTED)
    else if env.gorm_gatt_tab_is_decl iter then
      match iter.d with
      | none => none
      | some d =>
        let out := d.cb (GORM_GATT_DEFAULT_MTU - 1)
        some { data := buf_write_list d0 1 out, reply_len := some (out.length + 1),
               returned := false }
    else
      some (_error d0 iter.handle BLE_ATT_ATTRIBUTE_NOT_FOUND)

/-- `_on_write_req`. -/
def _on_write_req (env : gatt_tab_env) (data : buf_t) (len : Nat) : Option gatt_out :=
  if len < 3 then
    some (_error data 0 BLE_ATT_INVALID_PDU)
  else
    let iter := env.gorm_gatt_tab_get_by_handle
      { handle := gorm_util_letohs data 1, e := none, c := none, d := none }
    if env.gorm_gatt_tab_is_char_val iter then
      match iter.c with
      | none => none
      | some c =>
        if c.perm &&& BLE_ATT_WRITE ≠ 0 then
          match c.cb with
          | none => none
          | some _ =>
            some { data := buf_write data 0 BLE_ATT_WRITE_RESP, reply_len := some 1,
                   returned := false }
        else
          some (_error data iter.handle BLE_ATT_WRITE_NOT_PERMITTED)
    else
      some (_error data iter.handle BLE_ATT_ATTRIBUTE_NOT_FOUND)

/-- The loop of `_on_find_info_req`:
`while (iter.d && (limit > 0) && (iter.handle <= end_handle)) {
gorm_util_htoles(&data[pos], iter.handle); gorm_util_htoles(&data[pos + 2],
iter.d->type); pos += 4; limit--; gorm_gatt_tab_get_next(&iter); }`. -/
def find_info_loop (env : gatt_tab_env) (end_handle : Nat) :
    Nat → gorm_gatt_tab_iter_t → buf_t → Nat → buf_t × Nat
  | 0, _, data, pos => (data, pos)
  | limit + 1, iter, data, pos =>
    match iter.d with
    | none => (data, pos)
    | some d =>
      if iter.handle ≤ end_handle then
        find_info_loop env end_handle limit (env.gorm_gatt_tab_get_next iter)
          (gorm_util_htoles (gorm_util_htoles data pos iter.handle) (pos + 2) d.type)
          (pos + 4)
      else
        (data, pos)

/-- `_on_find_info_req`. -/
def _on_find_info_req (env : gatt_tab_env) (data : buf_t) (len : Nat) : Option gatt_out :=
  if len ≠ 5 then
    some (_error data 0 BLE_ATT_INVALID_PDU)
  else
    let end_handle := gorm_util_letohs data 3
    let iter := env.gorm_gatt_tab_get_by_handle
      { handle := gorm_util_letohs data 1, e := none, c := none, d := none }
    if iter.d.isNone then
      some (_error data iter.handle BLE_ATT_ATTRIBUTE_NOT_FOUND)
    else
      let d0 := buf_write data 0 BLE_ATT_FIND_INFO_RESP
      let d1 := buf_write d0 1 BLE_ATT_FORMAT_U16
      let limit := (GORM_GATT_DEFAULT_MTU - 2) / 4
      let r := find_info_loop env end_handle limit iter d1 2
      some { data := r.1, reply_len := some r.2, returned := false }

/-- `_on_find_by_type_val`. -/
def _on_find_by_type_val (env : gatt_tab_env) (data : buf_t) (len : Nat) :
    Option gatt_out :=
  if len ≠ 9 ∧ len ≠ 23 then
    some (_error data 0 BLE_ATT_INVALID_PDU)
  else
    let handle := gorm_util_letohs data 1
    let type := gorm_util_letohs data 5
    let uuid := gorm_uuid_from_buf data 7 (len - 7)
    if type ≠ BLE_DECL_PRI_SERVICE then
      some (_error data handle BLE_ATT_ATTRIBUTE_NOT_FOUND)
    else
      let iter := env.gorm_gatt_tab_get_service_by_uuid
        { handle := handle, e := none, c := none, d := none } uuid
      match iter.e with
      | none => some (_error data handle BLE_ATT_ATTRIBUTE_NOT_FOUND)
      | some e =>
        let d0 := buf_write data 0 BLE_ATT_FIND_BY_VAL_RESP
        let d1 := gorm_util_htoles d0 1 e.handle
        let d2 := gorm_util_htoles d1 3 (env.gorm_gatt_tab_get_end_handle e)
        some { data := d2, reply_len := some 5, returned := false }

/-- `gorm_gatt_on_data`: the `switch (data[0])`. The requests without a handler are
answered with `_error(..., 0, BLE_ATT_REQUEST_NOT_SUP)` followed by
`gorm_pdupool_return(buf)`; every other opcode is dropped with
`gorm_pdupool_return(buf)`. The two `xtimer_now_usec` calls only feed a debug
message. -/
def gorm_gatt_on_data (env : gatt_tab_env) (data : buf_t) (len : Nat) : Option gatt_out :=
  if data 0 = BLE_ATT_MTU_REQ then _on_mtu_req data len
  else if data 0 = BLE_ATT_READ_BY_GROUP_TYPE_REQ then _on_read_by_group_type_req env data len
  else if data 0 = BLE_ATT_READ_BY_TYPE_REQ then _on_read_by_type_req env data len
  else if data 0 = BLE_ATT_READ_REQ then _on_read_req env data len
  else if data 0 = BLE_ATT_FIND_INFO_REQ then _on_find_info_req env data len
  else if data 0 = BLE_ATT_WRITE_REQ then _on_write_req env data len
  else if data 0 = BLE_ATT_FIND_BY_VAL_REQ then _on_find_by_type_val env data len
  else if data 0 = BLE_ATT_READ_BLOB_REQ ∨ data 0 = BLE_ATT_READ_MUL_REQ
      ∨ data 0 = BLE_ATT_PREP_WRITE_REQ ∨ data 0 = BLE_ATT_WRITE_COMMAND
      ∨ data 0 = BLE_ATT_EXEC_WRITE_REQ ∨ data 0 = BLE_ATT_VAL_NOTIFICATION
      ∨ data 0 = BLE_ATT_VAL_INDICATION ∨ data 0 = BLE_ATT_VAL_CONFIRMATION
      ∨ data 0 = BLE_ATT_SIGNED_WRITE_CMD then
    some { _error data 0 BLE_ATT_REQUEST_NOT_SUP with returned := true }
  else
    some { data := data, reply_len := none, returned := true }

/-! A table for exercising the server. -/

/-- The handle of the last attribute of a service in `table_env`: the service
declaration plus two attributes for each characteristic. -/
def table_end_handle (e : gorm_gatt_entry_t) : Nat := e.handle + 2 * e.service.chars.length

/-- A stand-in for the table functions over a list of entries ordered by handle.
`gorm_gatt_tab_find_service` gives the first service whose last handle is not below the
start handle, with its successors; a lookup by handle finds the value of
characteristic `i` of a service at the service handle plus `2 * i + 2`, and no
descriptors. -/
def table_env (tab : List gorm_gatt_entry_t) : gatt_tab_env where
  gorm_gatt_tab_find_service := fun start => tab.dropWhile (fun e => table_end_handle e < start)
  gorm_gatt_tab_get_service := fun h =>
    tab.find? (fun e => e.handle ≤ h ∧ h ≤ table_end_handle e)
  gorm_gatt_tab_get_end_handle := table_end_handle
  gorm_gatt_tab_find_char := fun e h =>
    if h ≤ e.handle + 1 ∧ 0 < e.service.chars.length then 0
    else if (h - e.handle - 1) / 2 < e.service.chars.length then ((h - e.handle - 1) / 2 : Nat)
    else -1
  gorm_gatt_tab_get_char_handle := fun e num => e.handle + 2 * num + 1
  gorm_gatt_tab_get_val_handle := fun e num => e.handle + 2 * num + 2
  gorm_gatt_tab_get_by_handle := fun iter =>
    match tab.find? (fun e => e.handle ≤ iter.handle ∧ iter.handle ≤ table_end_handle e) with
    | none => { iter with e := none, c := none, d := none }
    | some e =>
      if e.handle < iter.handle ∧ (iter.handle - e.handle) % 2 = 0 then
        { iter with e := some e, c := e.service.chars.get? ((iter.handle - e.handle) / 2 - 1),
                    d := none }
      else { iter with e := some e, c := none, d := none }
  gorm_gatt_tab_is_char_val := fun iter => iter.c.isSome
  gorm_gatt_tab_is_decl := fun iter => iter.d.isSome
  gorm_gatt_tab_get_next := fun iter => { iter with handle := iter.handle + 1, d := none }
  gorm_gatt_tab_get_service_by_uuid := fun iter uuid =>
    { iter with e := tab.find? (fun e =>
        gorm_uuid_bytes e.service.uuid = gorm_uuid_bytes uuid) }

/-- A table with two services: a 16-bit UUID service (0x1800) at handle 1 with one
readable and one write-only characteristic, and a 128-bit UUID service at handle 6
without characteristics. -/
def mixed_table : List gorm_gatt_entry_t :=
  [ { handle := 1,
      service :=
        { uuid := { base := none, uuid16 := 0x1800 },
          chars :=
            [ { type := { base := none, uuid16 := 0x2a00 }, perm := BLE_ATT_READ,
                cb := some (fun _ _ _ => [0x52, 0x49, 0x4f, 0x54]) },
              { type := { base := none, uuid16 := 0x2a01 }, perm := BLE_ATT_WRITE,
                cb := some (fun _ _ _ => []) } ] } },
    { handle := 6,
      service :=
        { uuid := { base := some (List.replicate 16 0xAB), uuid16 := 0x0001 },
          chars := [] } } ]

end gorm_gatt

/-! ## Theorems -/

namespace sdcard_spi

set_option maxRecDepth 100000

/-! ### Helper lemmas -/

/-- The capacity expression of a version 1 CSD stays below `2 ^ 36`. -/
theorem csd_v1_shift_lt (c m r : Nat) (hc : c < 2 ^ 12) (hm : m < 2 ^ 3) (hr : r < 2 ^ 4) :
    ((c + 1) <<< (m + 2)) <<< r ≤ 2 ^ 36 := by
  rw [Nat.shiftLeft_eq, Nat.shiftLeft_eq]
  have h1 : c + 1 ≤ 2 ^ 12 := hc
  have h2 : 2 ^ (m + 2) ≤ 2 ^ 9 := Nat.pow_le_pow_right (by decide) (by omega)
  have h3 : 2 ^ r ≤ 2 ^ 15 := Nat.pow_le_pow_right (by decide) (by omega)
  calc (c + 1) * 2 ^ (m + 2) * 2 ^ r
      ≤ 2 ^ 12 * 2 ^ 9 * 2 ^ 15 := Nat.mul_le_mul (Nat.mul_le_mul h1 h2) h3
    _ = 2 ^ 36 := by norm_num

/-- With a version 1 CSD of valid field widths the capacity is the shift expression
itself: the reduction modulo `2 ^ 64` does nothing. -/
theorem get_capacity_v1_eq (card : sd_card_t)
    (hs : card.csd_structure = SD_CSD_V1) (hv : card.csd.v1.valid) :
    sdcard_spi_get_capacity card
        = ((card.csd.v1.C_SIZE + 1) <<< (card.csd.v1.C_SIZE_MULT + 2))
            <<< card.csd.v1.READ_BL_LEN := by
  obtain ⟨hr, hc, hm⟩ := hv
  have hb := csd_v1_shift_lt card.csd.v1.C_SIZE card.csd.v1.C_SIZE_MULT
    card.csd.v1.READ_BL_LEN hc hm hr
  unfold sdcard_spi_get_capacity
  rw [if_pos hs, Nat.mod_eq_of_lt (lt_of_le_of_lt hb (by norm_num))]

/-- With a version 2 CSD whose `C_SIZE` has at most 22 bits the capacity is
`(C_SIZE + 1) * 524288`: the reduction modulo `2 ^ 64` does nothing. -/
theorem get_capacity_v2_eq (card : sd_card_t)
    (hs : card.csd_structure = SD_CSD_V2) (hc : card.csd.v2.C_SIZE < 2 ^ 22) :
    sdcard_spi_get_capacity card = (card.csd.v2.C_SIZE + 1) * 524288 := by
  have hne : ¬ card.csd_structure = SD_CSD_V1 := by rw [hs]; decide
  have he : (card.csd.v2.C_SIZE + 1) * SD_CSD_V2_C_SIZE_BLOCK_MULT * SD_HC_FIXED_BLOCK_SIZE
      = (card.csd.v2.C_SIZE + 1) * 524288 := by
    simp only [SD_CSD_V2_C_SIZE_BLOCK_MULT, SD_HC_FIXED_BLOCK_SIZE]
    omega
  unfold sdcard_spi_get_capacity
  rw [if_neg hne, if_pos hs, he]
  apply Nat.mod_eq_of_lt
  norm_num at hc ⊢
  omega

/-! ### R1 response byte -/

/-- C1: for every byte `x`, `R1_HAS_ERROR(x)` holds iff one of the five error bits
(bit 2 illegal command, bit 3 CRC error, bit 4 erase-sequence error, bit 5 address error,
bit 6 parameter error) is set in `x`, that is iff `(x & 0x7C) != 0`; flipping the
idle-state bit `0x01` or the erase-reset bit `0x02` of `x` leaves the result unchanged. -/
theorem R1_HAS_ERROR_iff_error_bit (x : Nat) (hx : x < 256) :
    (R1_HAS_ERROR x = true ↔
      (x.testBit 2 = true ∨ x.testBit 3 = true ∨ x.testBit 4 = true ∨ x.testBit 5 = true
        ∨ x.testBit 6 = true)) ∧
    (R1_HAS_ERROR x = true ↔ x &&& 0x7C ≠ 0) ∧
    R1_HAS_ERROR (x ^^^ 0x01) = R1_HAS_ERROR x ∧
    R1_HAS_ERROR (x ^^^ 0x02) = R1_HAS_ERROR x := by
  revert x
  decide

/-- The byte `0x09` (CRC error while idle) instantiates C1: the error predicate holds,
and still holds with the idle bit or the erase-reset bit flipped. -/
theorem R1_HAS_ERROR_iff_error_bit_witness :
    0x09 < 256 ∧
    ((R1_HAS_ERROR 0x09 = true ↔
      (Nat.testBit 0x09 2 = true ∨ Nat.testBit 0x09 3 = true ∨ Nat.testBit 0x09 4 = true
        ∨ Nat.testBit 0x09 5 = true ∨ Nat.testBit 0x09 6 = true)) ∧
    (R1_HAS_ERROR 0x09 = true ↔ 0x09 &&& 0x7C ≠ 0) ∧
    R1_HAS_ERROR (0x09 ^^^ 0x01) = R1_HAS_ERROR 0x09 ∧
    R1_HAS_ERROR (0x09 ^^^ 0x02) = R1_HAS_ERROR 0x09) :=
  ⟨by decide, R1_HAS_ERROR_iff_error_bit 0x09 (by decide)⟩

/-- C2: for every byte `x`, `IS_VALID_R1_BYTE(x)` holds iff the most significant bit of
`x` is 0, that is iff `x < 0x80`; the sentinel `SD_INVALID_R1_RESPONSE` (`0x80`) and the
idle-bus byte `SD_CARD_DUMMY_BYTE` (`0xFF`) are both not valid, so a valid byte never
equals the sentinel. -/
theorem IS_VALID_R1_BYTE_iff_msb_clear (x : Nat) (hx : x < 256) :
    (IS_VALID_R1_BYTE x = true ↔ x.testBit 7 = false) ∧
    (IS_VALID_R1_BYTE x = true ↔ x < 0x80) ∧
    SD_INVALID_R1_RESPONSE = 0x80 ∧ SD_CARD_DUMMY_BYTE = 0xFF ∧
    IS_VALID_R1_BYTE SD_INVALID_R1_RESPONSE = false ∧
    IS_VALID_R1_BYTE SD_CARD_DUMMY_BYTE = false ∧
    (IS_VALID_R1_BYTE x = true → x ≠ SD_INVALID_R1_RESPONSE) := by
  revert x
  decide

/-- The byte `0x01` (idle, no error) instantiates C2: it is a valid R1 byte and differs
from the sentinel. -/
theorem IS_VALID_R1_BYTE_iff_msb_clear_witness :
    0x01 < 256 ∧ IS_VALID_R1_BYTE 0x01 = true ∧ 0x01 ≠ SD_INVALID_R1_RESPONSE :=
  have h := IS_VALID_R1_BYTE_iff_msb_clear 0x01 (by decide)
  ⟨by decide, h.2.1.mpr (by decide), h.2.2.2.2.2.2 (h.2.1.mpr (by decide))⟩

/-! ### Capacity and sector count -/

/-- C3: for every version 1 CSD whose `C_SIZE` is a 12-bit, `C_SIZE_MULT` a 3-bit and
`READ_BL_LEN` a 4-bit value, `sdcard_spi_get_capacity` returns exactly
`((C_SIZE + 1) << (C_SIZE_MULT + 2)) << READ_BL_LEN`, a value that fits the 64-bit
result. -/
theorem sdcard_spi_get_capacity_csd_v1 (card : sd_card_t)
    (hs : card.csd_structure = SD_CSD_V1) (hv : card.csd.v1.valid) :
    sdcard_spi_get_capacity card
        = ((card.csd.v1.C_SIZE + 1) <<< (card.csd.v1.C_SIZE_MULT + 2))
            <<< card.csd.v1.READ_BL_LEN ∧
    sdcard_spi_get_capacity card < 2 ^ 64 := by
  have he := get_capacity_v1_eq card hs hv
  have hb := csd_v1_shift_lt card.csd.v1.C_SIZE card.csd.v1.C_SIZE_MULT
    card.csd.v1.READ_BL_LEN hv.2.1 hv.2.2 hv.1
  refine ⟨he, ?_⟩
  rw [he]
  exact lt_of_le_of_lt hb (by norm_num)

/-- A version 1 card with the largest fields (`C_SIZE = 4095`, `C_SIZE_MULT = 7`,
`READ_BL_LEN = 15`) instantiates C3: its capacity is `2 ^ 36` bytes. -/
theorem sdcard_spi_get_capacity_csd_v1_witness :
    (card_v1 4095 7 15).csd_structure = SD_CSD_V1 ∧ (card_v1 4095 7 15).csd.v1.valid ∧
    sdcard_spi_get_capacity (card_v1 4095 7 15) = ((4095 + 1) <<< (7 + 2)) <<< 15 ∧
    sdcard_spi_get_capacity (card_v1 4095 7 15) < 2 ^ 64 :=
  ⟨rfl, by decide, sdcard_spi_get_capacity_csd_v1 (card_v1 4095 7 15) rfl (by decide)⟩

/-- C4: for every 22-bit version 2 `C_SIZE`, the capacity
`(C_SIZE + 1) * SD_CSD_V2_C_SIZE_BLOCK_MULT * SD_HC_FIXED_BLOCK_SIZE` equals
`(C_SIZE + 1) * 524288` bytes, stays below `2 ^ 64`, and is what
`sdcard_spi_get_capacity` returns. -/
theorem sdcard_spi_get_capacity_csd_v2 (card : sd_card_t)
    (hs : card.csd_structure = SD_CSD_V2) (hv : card.csd.v2.valid) :
    (card.csd.v2.C_SIZE + 1) * SD_CSD_V2_C_SIZE_BLOCK_MULT * SD_HC_FIXED_BLOCK_SIZE
        = (card.csd.v2.C_SIZE + 1) * 524288 ∧
    (card.csd.v2.C_SIZE + 1) * SD_CSD_V2_C_SIZE_BLOCK_MULT * SD_HC_FIXED_BLOCK_SIZE
        < 2 ^ 64 ∧
    sdcard_spi_get_capacity card = (card.csd.v2.C_SIZE + 1) * 524288 := by
  have hc : card.csd.v2.C_SIZE < 2 ^ 22 := hv
  have he : (card.csd.v2.C_SIZE + 1) * SD_CSD_V2_C_SIZE_BLOCK_MULT * SD_HC_FIXED_BLOCK_SIZE
      = (card.csd.v2.C_SIZE + 1) * 524288 := by
    simp only [SD_CSD_V2_C_SIZE_BLOCK_MULT, SD_HC_FIXED_BLOCK_SIZE]
    omega
  refine ⟨he, ?_, get_capacity_v2_eq card hs hc⟩
  rw [he]
  norm_num at hc ⊢
  omega

/-- A version 2 card with `C_SIZE = 0x3FFFFF` instantiates C4: its capacity is
`2 ^ 41` bytes. -/
theorem sdcard_spi_get_capacity_csd_v2_witness :
    (card_v2 0x3FFFFF).csd_structure = SD_CSD_V2 ∧ (card_v2 0x3FFFFF).csd.v2.valid ∧
    sdcard_spi_get_capacity (card_v2 0x3FFFFF) = (0x3FFFFF + 1) * 524288 :=
  ⟨rfl, by decide, (sdcard_spi_get_capacity_csd_v2 (card_v2 0x3FFFFF) rfl (by decide)).2.2⟩

/-- C5, as amended: for every version 1 CSD of valid field widths and every version 2
CSD with `C_SIZE` at most `2 ^ 22 - 2`, `sdcard_spi_get_sector_count` equals the
capacity divided by 512, and that quotient is below `2 ^ 32`. -/
theorem sdcard_spi_get_sector_count_exact (card : sd_card_t)
    (h : (card.csd_structure = SD_CSD_V1 ∧ card.csd.v1.valid) ∨
         (card.csd_structure = SD_CSD_V2 ∧ card.csd.v2.C_SIZE < 2 ^ 22 - 1)) :
    sdcard_spi_get_sector_count card = sdcard_spi_get_capacity card / 512 ∧
    sdcard_spi_get_capacity card / 512 < 2 ^ 32 := by
  have key : sdcard_spi_get_capacity card / 512 < 2 ^ 32 := by
    rcases h with ⟨hs, hv⟩ | ⟨hs, hc⟩
    · rw [get_capacity_v1_eq card hs hv]
      have hb := csd_v1_shift_lt card.csd.v1.C_SIZE card.csd.v1.C_SIZE_MULT
        card.csd.v1.READ_BL_LEN hv.2.1 hv.2.2 hv.1
      norm_num at hb ⊢
      omega
    · have hc2 : card.csd.v2.C_SIZE < 2 ^ 22 := lt_of_lt_of_le hc (by norm_num)
      rw [get_capacity_v2_eq card hs hc2]
      norm_num at hc ⊢
      omega
  refine ⟨?_, key⟩
  unfold sdcard_spi_get_sector_count
  simp only [SD_HC_FIXED_BLOCK_SIZE]
  exact Nat.mod_eq_of_lt key

/-- A version 2 card with `C_SIZE = 0x3FFFFE`, the largest value of the amended C5,
has `0xFFFFFC00` sectors. -/
theorem sdcard_spi_get_sector_count_exact_witness :
    (card_v2 0x3FFFFE).csd_structure = SD_CSD_V2 ∧
    (card_v2 0x3FFFFE).csd.v2.C_SIZE < 2 ^ 22 - 1 ∧
    sdcard_spi_get_sector_count (card_v2 0x3FFFFE)
      = sdcard_spi_get_capacity (card_v2 0x3FFFFE) / 512 ∧
    sdcard_spi_get_capacity (card_v2 0x3FFFFE) / 512 < 2 ^ 32 :=
  ⟨rfl, by decide,
    sdcard_spi_get_sector_count_exact (card_v2 0x3FFFFE) (Or.inr ⟨rfl, by decide⟩)⟩

/-- C5 fails as stated: the version 2 card with the 22-bit `C_SIZE = 0x3FFFFF` has a
capacity of `2 ^ 41` bytes, so capacity / 512 is `2 ^ 32`, which is not below `2 ^ 32`,
and the 32-bit sector count is 0. -/
theorem sdcard_spi_get_sector_count_wraps_at_max_csd_v2 :
    (card_v2 0x3FFFFF).csd_structure = SD_CSD_V2 ∧
    (card_v2 0x3FFFFF).csd.v2.valid ∧
    sdcard_spi_get_capacity (card_v2 0x3FFFFF) = 2 ^ 41 ∧
    sdcard_spi_get_capacity (card_v2 0x3FFFFF) / 512 = 2 ^ 32 ∧
    sdcard_spi_get_sector_count (card_v2 0x3FFFFF) = 0 ∧
    ¬ (sdcard_spi_get_sector_count (card_v2 0x3FFFFF)
        = sdcard_spi_get_capacity (card_v2 0x3FFFFF) / 512 ∧
       sdcard_spi_get_capacity (card_v2 0x3FFFFF) / 512 < 2 ^ 32) := by
  decide

/-! ### Data response token -/

/-- C6: for every data-response byte `x`: if bit 0 of `x` is 0 the token is not valid;
if the low nibble is `0101` the token is accepted and is neither a CRC error nor a write
error; if it is `1011` the token is a CRC error only; if it is `1101` the token is a
write error only. -/
theorem DATA_RESPONSE_low_nibble (x : Nat) (hx : x < 256) :
    (x.testBit 0 = false → DATA_RESPONSE_IS_VALID x = false) ∧
    (x &&& 0x0F = 0b0101 →
      DATA_RESPONSE_ACCEPTED x = true ∧ DATA_RESPONSE_CRC_ERR x = false
        ∧ DATA_RESPONSE_WRITE_ERR x = false) ∧
    (x &&& 0x0F = 0b1011 →
      DATA_RESPONSE_ACCEPTED x = false ∧ DATA_RESPONSE_CRC_ERR x = true
        ∧ DATA_RESPONSE_WRITE_ERR x = false) ∧
    (x &&& 0x0F = 0b1101 →
      DATA_RESPONSE_ACCEPTED x = false ∧ DATA_RESPONSE_CRC_ERR x = false
        ∧ DATA_RESPONSE_WRITE_ERR x = true) := by
  revert x
  decide

/-- The token `0xE5` (low nibble `0101`) instantiates C6: it is accepted and no
error. -/
theorem DATA_RESPONSE_low_nibble_witness :
    0xE5 < 256 ∧ 0xE5 &&& 0x0F = 0b0101 ∧
    DATA_RESPONSE_ACCEPTED 0xE5 = true ∧ DATA_RESPONSE_CRC_ERR 0xE5 = false ∧
    DATA_RESPONSE_WRITE_ERR 0xE5 = false :=
  ⟨by decide, by decide, (DATA_RESPONSE_low_nibble 0xE5 (by decide)).2.1 (by decide)⟩

/-- C7: there is a byte that passes `DATA_RESPONSE_IS_VALID` and is neither accepted,
nor a CRC error, nor a write error; `0x01` is one. -/
theorem DATA_RESPONSE_valid_but_unclassified :
    ∃ x : Nat, x < 256 ∧ DATA_RESPONSE_IS_VALID x = true ∧
      DATA_RESPONSE_ACCEPTED x = false ∧ DATA_RESPONSE_CRC_ERR x = false ∧
      DATA_RESPONSE_WRITE_ERR x = false :=
  ⟨0x01, by decide⟩

/-! ### Command frame and tokens -/

/-- C8: for every command index `i < 64`, the first frame byte `SD_CMD_PREFIX_MASK | i`
is a byte with bit 7 clear, bit 6 set and low six bits equal to `i`; every command index
the header defines is below 64. -/
theorem SD_CMD_PREFIX_MASK_first_byte (i : Nat) (hi : i < 64) :
    (SD_CMD_PREFIX_MASK ||| i) < 256 ∧
    (SD_CMD_PREFIX_MASK ||| i).testBit 7 = false ∧
    (SD_CMD_PREFIX_MASK ||| i).testBit 6 = true ∧
    (SD_CMD_PREFIX_MASK ||| i) &&& 0x3F = i ∧
    (∀ idx ∈ SD_CMD_IDX_all, idx < 64) := by
  revert i
  decide

/-- The index of CMD55 instantiates C8: the first frame byte is `0x77`. -/
theorem SD_CMD_PREFIX_MASK_first_byte_witness :
    SD_CMD_55_IDX < 64 ∧ (SD_CMD_PREFIX_MASK ||| SD_CMD_55_IDX) = 0x77 ∧
    (SD_CMD_PREFIX_MASK ||| SD_CMD_55_IDX) &&& 0x3F = SD_CMD_55_IDX :=
  ⟨by decide, by decide, (SD_CMD_PREFIX_MASK_first_byte SD_CMD_55_IDX (by decide)).2.2.2.1⟩

/-- C9: the three data tokens are pairwise distinct bytes and each differs from the
filler byte `SD_CARD_DUMMY_BYTE` (`0xFF`). -/
theorem SD_DATA_TOKEN_distinct :
    SD_DATA_TOKEN_CMD_17_18_24 ≠ SD_DATA_TOKEN_CMD_25 ∧
    SD_DATA_TOKEN_CMD_17_18_24 ≠ SD_DATA_TOKEN_CMD_25_STOP ∧
    SD_DATA_TOKEN_CMD_25 ≠ SD_DATA_TOKEN_CMD_25_STOP ∧
    SD_DATA_TOKEN_CMD_17_18_24 < 256 ∧ SD_DATA_TOKEN_CMD_25 < 256 ∧
    SD_DATA_TOKEN_CMD_25_STOP < 256 ∧
    SD_CARD_DUMMY_BYTE = 0xFF ∧
    SD_DATA_TOKEN_CMD_17_18_24 ≠ SD_CARD_DUMMY_BYTE ∧
    SD_DATA_TOKEN_CMD_25 ≠ SD_CARD_DUMMY_BYTE ∧
    SD_DATA_TOKEN_CMD_25_STOP ≠ SD_CARD_DUMMY_BYTE := by
  decide

/-- C10: the R1 masks, in the order in-idle-state, erase-reset, illegal-command,
command-CRC-error, erase-sequence-error, address-error, parameter-error, are `1 << 0` to
`1 << 6`; they are pairwise disjoint, their union is `0x7F`, and none overlaps bit 7. -/
theorem SD_R1_RESPONSE_mask_layout :
    SD_R1_RESPONSE_IN_IDLE_STATE = 1 <<< 0 ∧
    SD_R1_RESPONSE_ERASE_RESET = 1 <<< 1 ∧
    SD_R1_RESPONSE_ILLEGAL_CMD_ERROR = 1 <<< 2 ∧
    SD_R1_RESPONSE_CMD_CRC_ERROR = 1 <<< 3 ∧
    SD_R1_RESPONSE_ERASE_SEQ_ERROR = 1 <<< 4 ∧
    SD_R1_RESPONSE_ADDR_ERROR = 1 <<< 5 ∧
    SD_R1_RESPONSE_PARAM_ERROR = 1 <<< 6 ∧
    List.Pairwise (fun a b => a &&& b = 0)
      [SD_R1_RESPONSE_IN_IDLE_STATE, SD_R1_RESPONSE_ERASE_RESET,
       SD_R1_RESPONSE_ILLEGAL_CMD_ERROR, SD_R1_RESPONSE_CMD_CRC_ERROR,
       SD_R1_RESPONSE_ERASE_SEQ_ERROR, SD_R1_RESPONSE_ADDR_ERROR,
       SD_R1_RESPONSE_PARAM_ERROR] ∧
    (SD_R1_RESPONSE_IN_IDLE_STATE ||| SD_R1_RESPONSE_ERASE_RESET
      ||| SD_R1_RESPONSE_ILLEGAL_CMD_ERROR ||| SD_R1_RESPONSE_CMD_CRC_ERROR
      ||| SD_R1_RESPONSE_ERASE_SEQ_ERROR ||| SD_R1_RESPONSE_ADDR_ERROR
      ||| SD_R1_RESPONSE_PARAM_ERROR) = 0x7F ∧
    (∀ m ∈ [SD_R1_RESPONSE_IN_IDLE_STATE, SD_R1_RESPONSE_ERASE_RESET,
       SD_R1_RESPONSE_ILLEGAL_CMD_ERROR, SD_R1_RESPONSE_CMD_CRC_ERROR,
       SD_R1_RESPONSE_ERASE_SEQ_ERROR, SD_R1_RESPONSE_ADDR_ERROR,
       SD_R1_RESPONSE_PARAM_ERROR], m &&& 0x80 = 0) := by
  decide

/-! ### Voltage window, CSD structure code, retry budgets -/

/-- C18: `SYSTEM_VOLTAGE` equals exactly `OCR_VOLTAGE_3_2_TO_3_3`, that is only bit 20 is
set: the macro ORs the same bit twice and does not contain the
`OCR_VOLTAGE_3_3_TO_3_4` bit (bit 21). -/
theorem SYSTEM_VOLTAGE_only_bit_20 :
    SYSTEM_VOLTAGE = OCR_VOLTAGE_3_2_TO_3_3 ∧
    SYSTEM_VOLTAGE = 1 <<< 20 ∧
    (∀ i < 32, SYSTEM_VOLTAGE.testBit i = true ↔ i = 20) ∧
    OCR_VOLTAGE_3_3_TO_3_4 = 1 <<< 21 ∧
    SYSTEM_VOLTAGE &&& OCR_VOLTAGE_3_3_TO_3_4 = 0 ∧
    SYSTEM_VOLTAGE ≠ (OCR_VOLTAGE_3_2_TO_3_3 ||| OCR_VOLTAGE_3_3_TO_3_4) := by
  decide

/-- What `SD_GET_CSD_STRUCTURE` does on an unsigned byte 0: the result is the number
formed by the top two bits. -/
theorem csd_structure_of_unsigned_byte :
    ∀ n < 256,
      ((n : Nat) : Int) >>> 6 = (((n : Nat) : Int) % 256) / 64 ∧
      0 ≤ (((n : Nat) : Int) % 256) / 64 ∧ (((n : Nat) : Int) % 256) / 64 < 4 := by
  decide

/-- What `SD_GET_CSD_STRUCTURE` does on a signed `char` byte 0, written as `n - 128`:
the result is the number formed by the top two bits when the sign bit is clear, and
that number less 4 when it is set. -/
theorem csd_structure_of_signed_char :
    ∀ n < 256,
      (((n : Nat) : Int) - 128) >>> 6
        = (if ((((n : Nat) : Int) - 128) % 256) / 64 < 2 then
            ((((n : Nat) : Int) - 128) % 256) / 64
          else ((((n : Nat) : Int) - 128) % 256) / 64 - 4) ∧
      0 ≤ ((((n : Nat) : Int) - 128) % 256) / 64 ∧
      ((((n : Nat) : Int) - 128) % 256) / 64 < 4 := by
  decide

/-- The structure code of a register of unsigned bytes is the number formed by the top
two bits of byte 0. -/
theorem csd_structure_unsigned (raw : List Int)
    (hlen : raw.length = SD_SIZE_OF_CID_AND_CSD_REG) (hb : ∀ b ∈ raw, 0 ≤ b ∧ b < 256) :
    SD_GET_CSD_STRUCTURE raw = csd_top_two_bits raw ∧
    0 ≤ csd_top_two_bits raw ∧ csd_top_two_bits raw < 4 := by
  cases raw with
  | nil => simp [SD_SIZE_OF_CID_AND_CSD_REG] at hlen
  | cons b tl =>
    obtain ⟨h0, h1⟩ := hb b (List.mem_cons_self b tl)
    have key := csd_structure_of_unsigned_byte b.toNat (by omega)
    rw [Int.toNat_of_nonneg h0] at key
    exact key

/-- The structure code of a register of signed `char` is the number formed by the top
two bits of byte 0 when that is 0 or 1, and that number less 4 when it is 2 or 3. -/
theorem csd_structure_signed (raw : List Int)
    (hlen : raw.length = SD_SIZE_OF_CID_AND_CSD_REG) (hb : ∀ b ∈ raw, -128 ≤ b ∧ b < 128) :
    SD_GET_CSD_STRUCTURE raw
      = (if csd_top_two_bits raw < 2 then csd_top_two_bits raw
         else csd_top_two_bits raw - 4) ∧
    0 ≤ csd_top_two_bits raw ∧ csd_top_two_bits raw < 4 := by
  cases raw with
  | nil => simp [SD_SIZE_OF_CID_AND_CSD_REG] at hlen
  | cons b tl =>
    obtain ⟨h0, h1⟩ := hb b (List.mem_cons_self b tl)
    have key := csd_structure_of_signed_char (b + 128).toNat (by omega)
    have hn : (((b + 128).toNat : Nat) : Int) - 128 = b := by
      rw [Int.toNat_of_nonneg (by omega)]; omega
    rw [hn] at key
    exact key

/-- C19, as amended: for every 16-byte raw CSD register, of unsigned bytes or of signed
`char`, `SD_GET_CSD_STRUCTURE` is a function of the top two bits of byte 0 alone (two
registers of the same element type that agree on them get the same code); it equals
`SD_CSD_V1` exactly for the bits `00` and `SD_CSD_V2` exactly for `01`; for `10` and
`11` it is neither `SD_CSD_V1` nor `SD_CSD_V2`. On unsigned bytes the code is the number
formed by the two bits, a value from 0 to 3 that is never `SD_CSD_VUNSUPPORTED`; on
signed `char` the codes for `10` and `11` are -2 and -1, the latter being
`SD_CSD_VUNSUPPORTED`. -/
theorem SD_GET_CSD_STRUCTURE_top_two_bits (raw : List Int)
    (hlen : raw.length = SD_SIZE_OF_CID_AND_CSD_REG)
    (hb : (∀ b ∈ raw, 0 ≤ b ∧ b < 256) ∨ (∀ b ∈ raw, -128 ≤ b ∧ b < 128)) :
    (0 ≤ csd_top_two_bits raw ∧ csd_top_two_bits raw < 4) ∧
    (SD_GET_CSD_STRUCTURE raw = SD_CSD_V1 ↔ csd_top_two_bits raw = 0) ∧
    (SD_GET_CSD_STRUCTURE raw = SD_CSD_V2 ↔ csd_top_two_bits raw = 1) ∧
    (csd_top_two_bits raw = 2 ∨ csd_top_two_bits raw = 3 →
      SD_GET_CSD_STRUCTURE raw ≠ SD_CSD_V1 ∧ SD_GET_CSD_STRUCTURE raw ≠ SD_CSD_V2) ∧
    ((∀ b ∈ raw, 0 ≤ b ∧ b < 256) →
      SD_GET_CSD_STRUCTURE raw = csd_top_two_bits raw ∧
      0 ≤ SD_GET_CSD_STRUCTURE raw ∧ SD_GET_CSD_STRUCTURE raw < 4 ∧
      SD_GET_CSD_STRUCTURE raw ≠ SD_CSD_VUNSUPPORTED) ∧
    ((∀ b ∈ raw, -128 ≤ b ∧ b < 128) →
      (csd_top_two_bits raw < 2 → SD_GET_CSD_STRUCTURE raw = csd_top_two_bits raw) ∧
      (csd_top_two_bits raw = 2 → SD_GET_CSD_STRUCTURE raw = -2) ∧
      (csd_top_two_bits raw = 3 → SD_GET_CSD_STRUCTURE raw = SD_CSD_VUNSUPPORTED)) ∧
    (∀ raw2 : List Int, raw2.length = SD_SIZE_OF_CID_AND_CSD_REG →
      ((∀ b ∈ raw, 0 ≤ b ∧ b < 256) ∧ (∀ b ∈ raw2, 0 ≤ b ∧ b < 256)) ∨
        ((∀ b ∈ raw, -128 ≤ b ∧ b < 128) ∧ (∀ b ∈ raw2, -128 ≤ b ∧ b < 128)) →
      csd_top_two_bits raw2 = csd_top_two_bits raw →
      SD_GET_CSD_STRUCTURE raw2 = SD_GET_CSD_STRUCTURE raw) := by
  have hV1 : SD_CSD_V1 = 0 := rfl
  have hV2 : SD_CSD_V2 = 1 := rfl
  have hVU : SD_CSD_VUNSUPPORTED = -1 := rfl
  have hU := csd_structure_unsigned raw hlen
  have hS := csd_structure_signed raw hlen
  have hT : 0 ≤ csd_top_two_bits raw ∧ csd_top_two_bits raw < 4 := by
    rcases hb with h | h
    · exact (hU h).2
    · exact (hS h).2
  have hR : SD_GET_CSD_STRUCTURE raw = csd_top_two_bits raw ∨
      (2 ≤ csd_top_two_bits raw ∧
        SD_GET_CSD_STRUCTURE raw = csd_top_two_bits raw - 4) := by
    rcases hb with h | h
    · exact Or.inl (hU h).1
    · have e := (hS h).1
      by_cases h2 : csd_top_two_bits raw < 2
      · rw [if_pos h2] at e; exact Or.inl e
      · rw [if_neg h2] at e; exact Or.inr ⟨by omega, e⟩
  rw [hV1, hV2, hVU]
  refine ⟨hT, ?_, ?_, ?_, ?_, ?_, ?_⟩
  · rcases hR with e | ⟨h2, e⟩
    · rw [e]
    · rw [e]
      exact ⟨fun h => by omega, fun h => by omega⟩
  · rcases hR with e | ⟨h2, e⟩
    · rw [e]
    · rw [e]
      exact ⟨fun h => by omega, fun h => by omega⟩
  · intro h
    rcases hR with e | ⟨h2, e⟩
    · rw [e]
      exact ⟨by omega, by omega⟩
    · rw [e]
      exact ⟨by omega, by omega⟩
  · intro h
    have e := (hU h).1
    rw [e]
    exact ⟨rfl, hT.1, hT.2, by omega⟩
  · intro h
    have e := (hS h).1
    refine ⟨?_, ?_, ?_⟩
    · intro h2; rw [e, if_pos h2]
    · intro h2; rw [e, if_neg (by omega), h2]; rfl
    · intro h3; rw [e, if_neg (by omega), h3]; rfl
  · intro raw2 hlen2 hty heq
    rcases hty with ⟨h1, h2⟩ | ⟨h1, h2⟩
    · rw [(csd_structure_unsigned raw2 hlen2 h2).1, (hU h1).1, heq]
    · rw [(csd_structure_signed raw2 hlen2 h2).1, (hS h1).1, heq]

/-- A raw register of a version 2 card, as unsigned bytes (byte 0 is `0x40`),
instantiates the amended C19: its structure code is `SD_CSD_V2`. -/
theorem SD_GET_CSD_STRUCTURE_top_two_bits_witness :
    csd_top_two_bits [0x40, 0x0E, 0x00, 0x32, 0x5B, 0x59, 0x00, 0x00, 0x1D, 0x8A,
      0x7F, 0x80, 0x0A, 0x40, 0x00, 0x8D] = 1 ∧
    SD_GET_CSD_STRUCTURE [0x40, 0x0E, 0x00, 0x32, 0x5B, 0x59, 0x00, 0x00, 0x1D, 0x8A,
      0x7F, 0x80, 0x0A, 0x40, 0x00, 0x8D] = SD_CSD_V2 :=
  ⟨by decide,
    (SD_GET_CSD_STRUCTURE_top_two_bits
      [0x40, 0x0E, 0x00, 0x32, 0x5B, 0x59, 0x00, 0x00, 0x1D, 0x8A, 0x7F, 0x80, 0x0A,
        0x40, 0x00, 0x8D] (by decide) (Or.inl (by decide))).2.2.1.mpr (by decide)⟩

/-- C19 fails as stated: in a raw register of signed `char` whose byte 0 has the bit
pattern `0xC0` (the value -64, top two bits `11`), `SD_GET_CSD_STRUCTURE` is -1, which
is `SD_CSD_VUNSUPPORTED` itself and not a value from 0 to 3; with the bit pattern `0x80`
(the value -128, top two bits `10`) it is -2. -/
theorem SD_GET_CSD_STRUCTURE_signed_char_is_unsupported :
    [(-64 : Int), 0, 0, 0, 0, 0, 0, 0, 0, 0, 0, 0, 0, 0, 0, 0].length
      = SD_SIZE_OF_CID_AND_CSD_REG ∧
    (∀ b ∈ [(-64 : Int), 0, 0, 0, 0, 0, 0, 0, 0, 0, 0, 0, 0, 0, 0, 0], -128 ≤ b ∧ b < 128) ∧
    (-64 : Int) % 256 = 0xC0 ∧
    csd_top_two_bits [-64, 0, 0, 0, 0, 0, 0, 0, 0, 0, 0, 0, 0, 0, 0, 0] = 3 ∧
    SD_GET_CSD_STRUCTURE [-64, 0, 0, 0, 0, 0, 0, 0, 0, 0, 0, 0, 0, 0, 0, 0]
      = SD_CSD_VUNSUPPORTED ∧
    ¬ (0 ≤ SD_GET_CSD_STRUCTURE [-64, 0, 0, 0, 0, 0, 0, 0, 0, 0, 0, 0, 0, 0, 0, 0]) ∧
    SD_GET_CSD_STRUCTURE [-128, 0, 0, 0, 0, 0, 0, 0, 0, 0, 0, 0, 0, 0, 0, 0] = -2 := by
  decide

/-- C20: every retry budget the driver configures is a non-negative integer, so none of
the waits is set to the negative value that means retrying forever, and the per-block
command retry counts do not exceed the token-wait bound. -/
theorem retry_budgets_nonneg :
    (∀ n ∈ [R1_POLLING_RETRY_CNT, SD_DATA_TOKEN_RETRY_CNT, INIT_CMD_RETRY_CNT,
        INIT_CMD0_RETRY_CNT, SD_WAIT_FOR_NOT_BUSY_CNT, SD_BLOCK_READ_CMD_RETRIES,
        SD_BLOCK_WRITE_CMD_RETRIES], (0 : Int) ≤ n ∧ ¬ n < 0) ∧
    SD_BLOCK_READ_CMD_RETRIES ≤ SD_DATA_TOKEN_RETRY_CNT ∧
    SD_BLOCK_WRITE_CMD_RETRIES ≤ SD_DATA_TOKEN_RETRY_CNT := by
  decide

end sdcard_spi

/-! ### IRQ interface -/

namespace msp430_common

/-- Clearing `GIE` leaves no `GIE` bit behind. -/
theorem and_not_GIE_and_GIE (sr : Nat) : (sr &&& (0xFFFF ^^^ GIE)) &&& GIE = 0 := by
  rw [Nat.and_assoc]
  have h : (0xFFFF ^^^ GIE) &&& GIE = 0 := by decide
  rw [h, Nat.and_zero]

/-- Setting `GIE` makes the `GIE` test non-zero. -/
theorem or_GIE_and_GIE (sr : Nat) : (sr ||| GIE) &&& GIE = GIE := by
  apply Nat.eq_of_testBit_eq
  intro i
  simp only [Nat.testBit_and, Nat.testBit_or]
  cases Nat.testBit sr i <;> cases Nat.testBit GIE i <;> rfl

/-- A non-zero `GIE` test means bit 3 is set. -/
theorem testBit_of_and_GIE (sr : Nat) (hg : sr &&& GIE ≠ 0) : sr.testBit 3 = true := by
  obtain ⟨i, hi⟩ := Nat.ne_zero_implies_bit_true hg
  have h8 : GIE = 2 ^ 3 := by decide
  rw [Nat.testBit_and, h8, Nat.testBit_two_pow] at hi
  simp only [Bool.and_eq_true, decide_eq_true_eq] at hi
  obtain ⟨h1, h2⟩ := hi
  rw [h2]; exact h1

/-- Setting `GIE` when it is set changes nothing. -/
theorem or_GIE_of_set (sr : Nat) (hg : sr &&& GIE ≠ 0) : sr ||| GIE = sr := by
  apply Nat.eq_of_testBit_eq
  intro i
  have h8 : GIE = 2 ^ 3 := by decide
  have hbit := testBit_of_and_GIE sr hg
  rw [Nat.testBit_or, h8, Nat.testBit_two_pow]
  by_cases h3 : 3 = i
  · subst h3; simp [hbit]
  · simp [h3]

/-- Clearing and then setting `GIE` in a 16-bit status register that had `GIE` set gives
the register back. -/
theorem clear_set_GIE (sr : Nat) (h : sr < 2 ^ 16) (hg : sr &&& GIE ≠ 0) :
    (sr &&& (0xFFFF ^^^ GIE)) ||| GIE = sr := by
  apply Nat.eq_of_testBit_eq
  intro i
  have h8 : GIE = 2 ^ 3 := by decide
  have hF : (0xFFFF : Nat) = 2 ^ 16 - 1 := by norm_num
  have hbit := testBit_of_and_GIE sr hg
  rw [Nat.testBit_or, Nat.testBit_and, Nat.testBit_xor, h8, hF, Nat.testBit_two_pow,
    Nat.testBit_two_pow_sub_one]
  by_cases h3 : 3 = i
  · subst h3; simp [hbit]
  · by_cases h16 : i < 16
    · simp [h3, h16]
    · have hz : sr.testBit i = false :=
        Nat.testBit_lt_two_pow
          (lt_of_lt_of_le h (Nat.pow_le_pow_right (by decide) (by omega)))
      simp [h3, h16, hz]

end msp430_common

namespace irq

/-- C14: in both implementations, from every initial state, `s = irq_disable()` leaves
interrupts disabled and `irq_restore(s)` right after gives the initial state back, so
interrupts are enabled afterwards exactly if they were at the start. -/
theorem irq_disable_then_restore (c : cortexm_common.cpu_t) (m : msp430_common.cpu_t)
    (hc : c.valid) (hm : m.valid) :
    (cortexm_common.irq_is_enabled (cortexm_common.irq_disable c).2 = 0 ∧
      cortexm_common.irq_restore (cortexm_common.irq_disable c).2
        (cortexm_common.irq_disable c).1 = c ∧
      cortexm_common.irq_is_enabled
        (cortexm_common.irq_restore (cortexm_common.irq_disable c).2
          (cortexm_common.irq_disable c).1) = cortexm_common.irq_is_enabled c) ∧
    (msp430_common.irq_is_enabled (msp430_common.irq_disable m).2 = 0 ∧
      msp430_common.irq_restore (msp430_common.irq_disable m).2
        (msp430_common.irq_disable m).1 = m ∧
      msp430_common.irq_is_enabled
        (msp430_common.irq_restore (msp430_common.irq_disable m).2
          (msp430_common.irq_disable m).1) = msp430_common.irq_is_enabled m) := by
  have hcx : cortexm_common.irq_restore (cortexm_common.irq_disable c).2
      (cortexm_common.irq_disable c).1 = c := by
    have hlt : c.PRIMASK < 2 := hc
    cases c with
    | mk pm ipsr =>
      simp only [cortexm_common.irq_restore, cortexm_common.irq_disable,
        cortexm_common.__set_PRIMASK, cortexm_common.__disable_irq,
        cortexm_common.__get_PRIMASK]
      have hmod : pm % 2 = pm := Nat.mod_eq_of_lt hlt
      rw [hmod]
  have hmx : msp430_common.irq_restore (msp430_common.irq_disable m).2
      (msp430_common.irq_disable m).1 = m := by
    have hlt : m.r2 < 2 ^ 16 := hm
    cases m with
    | mk sr flag =>
      simp only [msp430_common.irq_restore, msp430_common.irq_disable,
        msp430_common.irq_is_enabled, msp430_common.__enable_irq,
        msp430_common.__disable_irq]
      by_cases hg : sr &&& msp430_common.GIE = 0
      · simp [hg]
      · simp [hg, msp430_common.clear_set_GIE sr hlt hg]
  refine ⟨⟨?_, hcx, by rw [hcx]⟩, ⟨?_, hmx, by rw [hmx]⟩⟩
  · rfl
  · simp only [msp430_common.irq_disable, msp430_common.irq_is_enabled,
      msp430_common.__disable_irq]
    by_cases hg : m.r2 &&& msp430_common.GIE = 0
    · simp [hg]
    · simp [hg, msp430_common.and_not_GIE_and_GIE]

/-- A Cortex-M core with interrupts enabled (`PRIMASK = 0`) and an MSP430 with the
status register `0x000B` (`GIE` set) instantiate C14. -/
theorem irq_disable_then_restore_witness :
    cortexm_common.irq_is_enabled
      (cortexm_common.irq_disable { PRIMASK := 0, IPSR := 0 }).2 = 0 ∧
    cortexm_common.irq_restore (cortexm_common.irq_disable { PRIMASK := 0, IPSR := 0 }).2
      (cortexm_common.irq_disable { PRIMASK := 0, IPSR := 0 }).1
        = { PRIMASK := 0, IPSR := 0 } ∧
    msp430_common.irq_is_enabled
      (msp430_common.irq_disable { r2 := 0x000B, __irq_is_in := 0 }).2 = 0 ∧
    msp430_common.irq_restore (msp430_common.irq_disable { r2 := 0x000B, __irq_is_in := 0 }).2
      (msp430_common.irq_disable { r2 := 0x000B, __irq_is_in := 0 }).1
        = { r2 := 0x000B, __irq_is_in := 0 } :=
  have h := irq_disable_then_restore { PRIMASK := 0, IPSR := 0 }
    { r2 := 0x000B, __irq_is_in := 0 } (by decide) (by decide)
  ⟨h.1.1, h.1.2.1, h.2.1, h.2.2.1⟩

/-- C15 evaluated where it fails: with interrupts disabled at the start (`PRIMASK = 1`),
the Cortex-M `irq_enable` returns 0, the value of PRIMASK after enabling and not the
previous value 1, and `irq_restore` of that return value leaves interrupts enabled. On
MSP430 (`r2 = 0`, `GIE` clear) `irq_enable` returns the previous state 0, and
`irq_restore(0)` leaves interrupts enabled as well. -/
theorem irq_enable_then_restore_stays_enabled :
    cortexm_common.__get_PRIMASK { PRIMASK := 1, IPSR := 0 } = 1 ∧
    cortexm_common.irq_is_enabled { PRIMASK := 1, IPSR := 0 } = 0 ∧
    (cortexm_common.irq_enable { PRIMASK := 1, IPSR := 0 }).1 = 0 ∧
    cortexm_common.irq_restore (cortexm_common.irq_enable { PRIMASK := 1, IPSR := 0 }).2
      (cortexm_common.irq_enable { PRIMASK := 1, IPSR := 0 }).1
        = { PRIMASK := 0, IPSR := 0 } ∧
    cortexm_common.irq_is_enabled
      (cortexm_common.irq_restore (cortexm_common.irq_enable { PRIMASK := 1, IPSR := 0 }).2
        (cortexm_common.irq_enable { PRIMASK := 1, IPSR := 0 }).1) = 1 ∧
    msp430_common.irq_is_enabled { r2 := 0, __irq_is_in := 0 } = 0 ∧
    (msp430_common.irq_enable { r2 := 0, __irq_is_in := 0 }).1 = 0 ∧
    msp430_common.irq_is_enabled
      (msp430_common.irq_restore (msp430_common.irq_enable { r2 := 0, __irq_is_in := 0 }).2
        (msp430_common.irq_enable { r2 := 0, __irq_is_in := 0 }).1) = msp430_common.GIE := by
  decide

/-- C16 evaluated where it fails: on MSP430 with interrupts enabled (`r2 = 0x0008`),
`irq_restore(0)` changes nothing and interrupts stay enabled, although the state 0 has
no `GIE` bit; the Cortex-M `irq_restore(1)` from the enabled state does disable. -/
theorem msp430_irq_restore_zero_stays_enabled :
    msp430_common.irq_is_enabled { r2 := 0x0008, __irq_is_in := 0 } ≠ 0 ∧
    0 &&& msp430_common.GIE = 0 ∧
    msp430_common.irq_restore { r2 := 0x0008, __irq_is_in := 0 } 0
      = { r2 := 0x0008, __irq_is_in := 0 } ∧
    msp430_common.irq_is_enabled
      (msp430_common.irq_restore { r2 := 0x0008, __irq_is_in := 0 } 0) ≠ 0 ∧
    cortexm_common.irq_is_enabled { PRIMASK := 0, IPSR := 0 } = 1 ∧
    cortexm_common.irq_is_enabled
      (cortexm_common.irq_restore { PRIMASK := 0, IPSR := 0 } 1) = 0 := by
  decide

end irq

/-! ### NimBLE network interface -/

namespace nimble_netif

end nimble_netif

/-! ### Command dispatcher -/

namespace sdcard_spi

/-- Appending one more copy in front of `k` copies. -/
theorem append_singleton_replicate {α : Type} (l : List α) (x : α) (k : Nat) :
    (l ++ [x]) ++ List.replicate k x = l ++ List.replicate (k + 1) x := by
  rw [List.append_assoc, List.replicate_succ]
  rfl

/-- If try number `k` is the first to succeed and the retry budget allows `k` retries,
the loop returns its result after exactly `k + 1` tries. -/
theorem send_cmd_loop_first_success {σ : Type} (env : dispatcher_env σ) (idx arg : Nat)
    (max_retry : Int) :
    ∀ (k fuel t : Nat) (bus : sd_bus_t σ), k < fuel →
      (∀ j, j < k → env.succeeded (r1_of_try env idx arg bus.dev j) = false) →
      env.succeeded (r1_of_try env idx arg bus.dev k) = true →
      (max_retry < 0 ∨ (t : Int) + k ≤ max_retry) →
      send_cmd_loop env idx arg max_retry fuel t bus
        = some (r1_of_try env idx arg bus.dev k,
            { dev := dev_after env idx arg (k + 1) bus.dev,
              sent := bus.sent ++ List.replicate (k + 1) (idx, arg) }) := by
  intro k
  induction k with
  | zero =>
    intro fuel t bus hf _ hs _
    obtain ⟨f, rfl⟩ : ∃ f, fuel = f + 1 := ⟨fuel - 1, by omega⟩
    have hs0 : env.succeeded (send_cmd_attempt env bus idx arg).1 = true := hs
    rw [send_cmd_loop, if_pos hs0]
    rfl
  | succ k ih =>
    intro fuel t bus hf hfail hs hbudget
    obtain ⟨f, rfl⟩ : ∃ f, fuel = f + 1 := ⟨fuel - 1, by omega⟩
    have h0 : env.succeeded (send_cmd_attempt env bus idx arg).1 = false :=
      hfail 0 (by omega)
    have hretry : max_retry < 0 ∨ (t : Int) < max_retry := by
      rcases hbudget with h | h
      · exact Or.inl h
      · right; push_cast at h; omega
    rw [send_cmd_loop, if_neg (by rw [h0]; decide), if_pos hretry]
    have step := ih f (t + 1) (send_cmd_attempt env bus idx arg).2 (by omega)
      (fun j hj => hfail (j + 1) (by omega)) hs
      (by
        rcases hbudget with h | h
        · exact Or.inl h
        · right; push_cast at h ⊢; omega)
    rw [step]
    simp only [send_cmd_attempt, append_singleton_replicate]
    rfl

/-- If every try the retry budget allows fails, the loop returns the result of the last
of them, after exactly `max_retry + 1` tries in total. -/
theorem send_cmd_loop_exhausted {σ : Type} (env : dispatcher_env σ) (idx arg : Nat)
    (max_retry : Int) :
    ∀ (m fuel t : Nat) (bus : sd_bus_t σ), m < fuel → (t : Int) + m = max_retry →
      (∀ j, j ≤ m → env.succeeded (r1_of_try env idx arg bus.dev j) = false) →
      send_cmd_loop env idx arg max_retry fuel t bus
        = some (r1_of_try env idx arg bus.dev m,
            { dev := dev_after env idx arg (m + 1) bus.dev,
              sent := bus.sent ++ List.replicate (m + 1) (idx, arg) }) := by
  intro m
  induction m with
  | zero =>
    intro fuel t bus hf ht hfail
    obtain ⟨f, rfl⟩ : ∃ f, fuel = f + 1 := ⟨fuel - 1, by omega⟩
    have h0 : env.succeeded (send_cmd_attempt env bus idx arg).1 = false :=
      hfail 0 (by omega)
    have hstop : ¬ (max_retry < 0 ∨ (t : Int) < max_retry) := by
      push_cast at ht; omega
    rw [send_cmd_loop, if_neg (by rw [h0]; decide), if_neg hstop]
    rfl
  | succ m ih =>
    intro fuel t bus hf ht hfail
    obtain ⟨f, rfl⟩ : ∃ f, fuel = f + 1 := ⟨fuel - 1, by omega⟩
    have h0 : env.succeeded (send_cmd_attempt env bus idx arg).1 = false :=
      hfail 0 (by omega)
    have hretry : max_retry < 0 ∨ (t : Int) < max_retry := by
      right; push_cast at ht; omega
    rw [send_cmd_loop, if_neg (by rw [h0]; decide), if_pos hretry]
    have step := ih f (t + 1) (send_cmd_attempt env bus idx arg).2 (by omega)
      (by push_cast at ht ⊢; omega) (fun j hj => hfail (j + 1) (by omega))
    rw [step]
    simp only [send_cmd_attempt, append_singleton_replicate]
    rfl

/-- With a negative `max_retry` the loop does not give up: as long as every try fails
it is still running. -/
theorem send_cmd_loop_forever {σ : Type} (env : dispatcher_env σ) (idx arg : Nat)
    (max_retry : Int) (hneg : max_retry < 0) :
    ∀ (fuel t : Nat) (bus : sd_bus_t σ),
      (∀ j, j < fuel → env.succeeded (r1_of_try env idx arg bus.dev j) = false) →
      send_cmd_loop env idx arg max_retry fuel t bus = none := by
  intro fuel
  induction fuel with
  | zero => intro t bus _; rfl
  | succ f ih =>
    intro t bus hfail
    have h0 : env.succeeded (send_cmd_attempt env bus idx arg).1 = false :=
      hfail 0 (by omega)
    rw [send_cmd_loop, if_neg (by rw [h0]; decide), if_pos (Or.inl hneg)]
    exact ih (t + 1) (send_cmd_attempt env bus idx arg).2
      (fun j hj => hfail (j + 1) (by omega))

/-- Whatever the loop returns, it has made between one and `fuel` tries, all of them of
the command it was asked to send. -/
theorem send_cmd_loop_sent {σ : Type} (env : dispatcher_env σ) (idx arg : Nat)
    (max_retry : Int) :
    ∀ (fuel t : Nat) (bus : sd_bus_t σ) (r : Nat × sd_bus_t σ),
      send_cmd_loop env idx arg max_retry fuel t bus = some r →
      ∃ k, 0 < k ∧ k ≤ fuel ∧ r.2.sent = bus.sent ++ List.replicate k (idx, arg) := by
  intro fuel
  induction fuel with
  | zero => intro t bus r h; simp [send_cmd_loop] at h
  | succ f ih =>
    intro t bus r h
    rw [send_cmd_loop] at h
    split at h
    · refine ⟨1, by omega, by omega, ?_⟩
      simp only [Option.some.injEq] at h
      rw [← h]; rfl
    · split at h
      · obtain ⟨k, hk0, hkf, hk⟩ := ih (t + 1) _ r h
        refine ⟨k + 1, by omega, by omega, ?_⟩
        rw [hk]
        simp only [send_cmd_attempt, append_singleton_replicate]
      · refine ⟨1, by omega, by omega, ?_⟩
        simp only [Option.some.injEq] at h
        rw [← h]; rfl

/-- With a non-negative `max_retry` and enough fuel the loop returns, after at least one
and at most `max_retry + 1` tries counting the retries already used. -/
theorem send_cmd_loop_bounded {σ : Type} (env : dispatcher_env σ) (idx arg : Nat)
    (max_retry : Int) :
    ∀ (fuel t : Nat) (bus : sd_bus_t σ), (t : Int) ≤ max_retry → max_retry - t < fuel →
      ∃ (r : Nat × sd_bus_t σ) (k : Nat),
        send_cmd_loop env idx arg max_retry fuel t bus = some r ∧ 0 < k ∧
        (t : Int) + (k : Int) ≤ max_retry + 1 ∧
        r.2.sent = bus.sent ++ List.replicate k (idx, arg) := by
  intro fuel
  induction fuel with
  | zero => intro t bus h1 h2; exfalso; push_cast at h2; omega
  | succ f ih =>
    intro t bus h1 h2
    rw [send_cmd_loop]
    split
    · exact ⟨_, 1, rfl, by omega, by push_cast; omega, rfl⟩
    · split
      · rename_i hretry
        have hlt : (t : Int) < max_retry := by
          rcases hretry with h | h
          · exfalso; omega
          · exact h
        obtain ⟨r, k, hr, hk0, hkb, hk⟩ := ih (t + 1) (send_cmd_attempt env bus idx arg).2
          (by push_cast; omega) (by push_cast at h2 ⊢; omega)
        refine ⟨r, k + 1, hr, by omega, by push_cast at hkb ⊢; omega, ?_⟩
        rw [hk]
        simp only [send_cmd_attempt, append_singleton_replicate]
      · exact ⟨_, 1, rfl, by omega, by push_cast; omega, rfl⟩

/-- C12: for `sdcard_spi_send_cmd`, `max_retry = 0` gives exactly one try; `max_retry =
n > 0` gives at least one and at most `n + 1` tries, the loop stopping at the first try
that succeeds and otherwise after try `n + 1`; a negative `max_retry` stops at the first
try that succeeds however late it comes, and is still retrying as long as none does. -/
theorem sdcard_spi_send_cmd_max_retry {σ : Type} (env : dispatcher_env σ)
    (bus : sd_bus_t σ) (idx arg : Nat) :
    (∀ fuel, 0 < fuel →
      sdcard_spi_send_cmd env fuel bus idx arg 0
        = some (r1_of_try env idx arg bus.dev 0,
            { dev := dev_after env idx arg 1 bus.dev,
              sent := bus.sent ++ [(idx, arg)] })) ∧
    (∀ n : Nat, 0 < n → ∀ fuel, n < fuel →
      (∀ k, k ≤ n →
        (∀ j, j < k → env.succeeded (r1_of_try env idx arg bus.dev j) = false) →
        env.succeeded (r1_of_try env idx arg bus.dev k) = true →
        sdcard_spi_send_cmd env fuel bus idx arg (n : Int)
          = some (r1_of_try env idx arg bus.dev k,
              { dev := dev_after env idx arg (k + 1) bus.dev,
                sent := bus.sent ++ List.replicate (k + 1) (idx, arg) })) ∧
      ((∀ j, j ≤ n → env.succeeded (r1_of_try env idx arg bus.dev j) = false) →
        sdcard_spi_send_cmd env fuel bus idx arg (n : Int)
          = some (r1_of_try env idx arg bus.dev n,
              { dev := dev_after env idx arg (n + 1) bus.dev,
                sent := bus.sent ++ List.replicate (n + 1) (idx, arg) })) ∧
      (∃ r k, sdcard_spi_send_cmd env fuel bus idx arg (n : Int) = some r ∧
        1 ≤ k ∧ k ≤ n + 1 ∧ r.2.sent = bus.sent ++ List.replicate k (idx, arg))) ∧
    (∀ max_retry : Int, max_retry < 0 →
      (∀ k fuel, k < fuel →
        (∀ j, j < k → env.succeeded (r1_of_try env idx arg bus.dev j) = false) →
        env.succeeded (r1_of_try env idx arg bus.dev k) = true →
        sdcard_spi_send_cmd env fuel bus idx arg max_retry
          = some (r1_of_try env idx arg bus.dev k,
              { dev := dev_after env idx arg (k + 1) bus.dev,
                sent := bus.sent ++ List.replicate (k + 1) (idx, arg) })) ∧
      (∀ fuel,
        (∀ j, j < fuel → env.succeeded (r1_of_try env idx arg bus.dev j) = false) →
        sdcard_spi_send_cmd env fuel bus idx arg max_retry = none)) := by
  refine ⟨?_, ?_, ?_⟩
  · intro fuel hf
    obtain ⟨f, rfl⟩ : ∃ f, fuel = f + 1 := ⟨fuel - 1, by omega⟩
    unfold sdcard_spi_send_cmd
    rw [send_cmd_loop]
    have hstop : ¬ ((0 : Int) < 0 ∨ ((0 : Nat) : Int) < 0) := by decide
    rw [if_neg hstop]
    split <;> rfl
  · intro n hn fuel hf
    refine ⟨?_, ?_, ?_⟩
    · intro k hk hfail hs
      exact send_cmd_loop_first_success env idx arg n k fuel 0 bus (by omega) hfail hs
        (Or.inr (by push_cast; omega))
    · intro hfail
      exact send_cmd_loop_exhausted env idx arg n n fuel 0 bus hf (by push_cast; omega)
        hfail
    · obtain ⟨r, k, hr, hk0, hkb, hk⟩ := send_cmd_loop_bounded env idx arg n fuel 0 bus
        (by push_cast; omega) (by push_cast; omega)
      exact ⟨r, k, hr, hk0, by push_cast at hkb; omega, hk⟩
  · intro max_retry hneg
    refine ⟨?_, ?_⟩
    · intro k fuel hk hfail hs
      exact send_cmd_loop_first_success env idx arg max_retry k fuel 0 bus hk hfail hs
        (Or.inl hneg)
    · intro fuel hfail
      exact send_cmd_loop_forever env idx arg max_retry hneg fuel 0 bus hfail

/-- A card that answers `0xFF` twice and then `0x00` instantiates C12: CMD17 sent with
`max_retry = 5` returns `0x00` after three tries. -/
theorem sdcard_spi_send_cmd_max_retry_witness :
    sdcard_spi_send_cmd (flaky_card 2 0x00) 6 ⟨0, []⟩ SD_CMD_17_IDX 0 5
      = some (0x00, ⟨3, [(SD_CMD_17_IDX, 0), (SD_CMD_17_IDX, 0), (SD_CMD_17_IDX, 0)]⟩) :=
  ((sdcard_spi_send_cmd_max_retry (flaky_card 2 0x00) ⟨0, []⟩ SD_CMD_17_IDX 0).2.1 5
    (by decide) 6 (by decide)).1 2 (by decide) (by decide) (by decide)

/-- C11: `sdcard_spi_send_acmd` first sends CMD55 with argument 0. If the result of
CMD55 is not a valid R1 byte or has an R1 error bit, that result is returned and nothing
but CMD55 has been put on the bus: CMD<n> is never tried. Otherwise CMD<n> with the
given argument is sent right after, and its result is the result of the call. With a
non-negative `max_retry` and enough fuel the call returns. -/
theorem sdcard_spi_send_acmd_cmd55_first {σ : Type} (env : dispatcher_env σ) (fuel : Nat)
    (bus : sd_bus_t σ) (idx arg : Nat) (max_retry : Int) :
    (sdcard_spi_send_cmd env fuel bus SD_CMD_55_IDX SD_CMD_ARG_NONE max_retry = none →
      sdcard_spi_send_acmd env fuel bus idx arg max_retry = none) ∧
    (∀ r, sdcard_spi_send_cmd env fuel bus SD_CMD_55_IDX SD_CMD_ARG_NONE max_retry = some r →
      (∃ k, 0 < k ∧
        r.2.sent = bus.sent ++ List.replicate k (SD_CMD_55_IDX, SD_CMD_ARG_NONE)) ∧
      ((IS_VALID_R1_BYTE r.1 = false ∨ R1_HAS_ERROR r.1 = true) →
        sdcard_spi_send_acmd env fuel bus idx arg max_retry = some r) ∧
      ((IS_VALID_R1_BYTE r.1 = true ∧ R1_HAS_ERROR r.1 = false) →
        sdcard_spi_send_acmd env fuel bus idx arg max_retry
          = sdcard_spi_send_cmd env fuel r.2 idx arg max_retry ∧
        ∀ r2, sdcard_spi_send_acmd env fuel bus idx arg max_retry = some r2 →
          ∃ k k2, 0 < k ∧ 0 < k2 ∧
            r2.2.sent = bus.sent ++ List.replicate k (SD_CMD_55_IDX, SD_CMD_ARG_NONE)
              ++ List.replicate k2 (idx, arg))) ∧
    (0 ≤ max_retry → max_retry < fuel →
      ∃ r, sdcard_spi_send_acmd env fuel bus idx arg max_retry = some r) := by
  refine ⟨?_, ?_, ?_⟩
  · intro h
    simp [sdcard_spi_send_acmd, h]
  · intro r h
    obtain ⟨k, hk0, _, hk⟩ := send_cmd_loop_sent env SD_CMD_55_IDX SD_CMD_ARG_NONE
      max_retry fuel 0 bus r h
    refine ⟨⟨k, hk0, hk⟩, ?_, ?_⟩
    · intro hbad
      have hc : (IS_VALID_R1_BYTE r.1 && !R1_HAS_ERROR r.1) = false := by
        rcases hbad with hb | hb <;> simp [hb]
      simp [sdcard_spi_send_acmd, h, hc]
    · intro hgood
      have hc : (IS_VALID_R1_BYTE r.1 && !R1_HAS_ERROR r.1) = true := by
        simp [hgood.1, hgood.2]
      have he : sdcard_spi_send_acmd env fuel bus idx arg max_retry
          = sdcard_spi_send_cmd env fuel r.2 idx arg max_retry := by
        simp [sdcard_spi_send_acmd, h, hc]
      refine ⟨he, ?_⟩
      intro r2 h2
      rw [he] at h2
      obtain ⟨k2, hk20, _, hk2⟩ := send_cmd_loop_sent env idx arg max_retry fuel 0 r.2 r2 h2
      exact ⟨k, k2, hk0, hk20, by rw [hk2, hk]⟩
  · intro h0 hf
    obtain ⟨r, _, hr, _, _, _⟩ := send_cmd_loop_bounded env SD_CMD_55_IDX SD_CMD_ARG_NONE
      max_retry fuel 0 bus (by push_cast; omega) (by push_cast; omega)
    have hr1 : sdcard_spi_send_cmd env fuel bus SD_CMD_55_IDX SD_CMD_ARG_NONE max_retry
        = some r := hr
    by_cases hc : (IS_VALID_R1_BYTE r.1 && !R1_HAS_ERROR r.1) = true
    · obtain ⟨r2, _, hr2, _, _, _⟩ := send_cmd_loop_bounded env idx arg max_retry fuel 0 r.2
        (by push_cast; omega) (by push_cast; omega)
      refine ⟨r2, ?_⟩
      simp only [sdcard_spi_send_acmd, hr1, hc, if_true]
      exact hr2
    · exact ⟨r, by simp [sdcard_spi_send_acmd, hr1, hc]⟩

/-- A card that rejects every command with `0x05` (illegal command, idle) instantiates
C11: ACMD41 returns the `0x05` of CMD55, and only CMD55 with argument 0 was tried. -/
theorem sdcard_spi_send_acmd_cmd55_first_witness :
    sdcard_spi_send_cmd (flaky_card 0 0x05) 1 ⟨0, []⟩ SD_CMD_55_IDX SD_CMD_ARG_NONE 0
      = some (0x05, ⟨1, [(SD_CMD_55_IDX, SD_CMD_ARG_NONE)]⟩) ∧
    R1_HAS_ERROR 0x05 = true ∧
    sdcard_spi_send_acmd (flaky_card 0 0x05) 1 ⟨0, []⟩ SD_CMD_41_IDX SD_ACMD_41_ARG_HC 0
      = some (0x05, ⟨1, [(SD_CMD_55_IDX, SD_CMD_ARG_NONE)]⟩) :=
  ⟨rfl, by decide,
    ((sdcard_spi_send_acmd_cmd55_first (flaky_card 0 0x05) 1 ⟨0, []⟩ SD_CMD_41_IDX
      SD_ACMD_41_ARG_HC 0).2.1 (0x05, ⟨1, [(SD_CMD_55_IDX, SD_CMD_ARG_NONE)]⟩) rfl).2.1
      (Or.inr (by decide))⟩

/-! ### Block transfer engine -/

/-- The block loop started after `done` blocks: the count it returns lies between
`done` and `done + n`, all blocks from `done` up to the count have status `SD_RW_OK`,
a count below `done + n` comes with the status of the block at the count, which is not
`SD_RW_OK`, and the full count comes with `SD_RW_OK`. -/
theorem transfer_blocks_spec {σ : Type} (xfer : σ → Int → Nat → sd_rw_response_t × σ)
    (arg : Int) (dev0 : σ) :
    ∀ (n done : Nat),
      done ≤ (transfer_blocks xfer arg n done (dev_after_blocks xfer arg done dev0)).1 ∧
      (transfer_blocks xfer arg n done (dev_after_blocks xfer arg done dev0)).1 ≤ done + n ∧
      (∀ i, done ≤ i →
        i < (transfer_blocks xfer arg n done (dev_after_blocks xfer arg done dev0)).1 →
        status_of_block xfer arg dev0 i = sd_rw_response_t.SD_RW_OK) ∧
      ((transfer_blocks xfer arg n done (dev_after_blocks xfer arg done dev0)).1 < done + n →
        (transfer_blocks xfer arg n done (dev_after_blocks xfer arg done dev0)).2.1
          = status_of_block xfer arg dev0
              (transfer_blocks xfer arg n done (dev_after_blocks xfer arg done dev0)).1 ∧
        (transfer_blocks xfer arg n done (dev_after_blocks xfer arg done dev0)).2.1
          ≠ sd_rw_response_t.SD_RW_OK) ∧
      ((transfer_blocks xfer arg n done (dev_after_blocks xfer arg done dev0)).1 = done + n →
        (transfer_blocks xfer arg n done (dev_after_blocks xfer arg done dev0)).2.1
          = sd_rw_response_t.SD_RW_OK) := by
  intro n
  induction n with
  | zero =>
    intro done
    simp only [transfer_blocks]
    refine ⟨le_rfl, le_rfl, ?_, ?_, ?_⟩
    · intro i h1 h2; omega
    · intro h; omega
    · intro _; trivial
  | succ n ih =>
    intro done
    rw [transfer_blocks]
    by_cases hok : (xfer (dev_after_blocks xfer arg done dev0) arg done).1
        = sd_rw_response_t.SD_RW_OK
    · rw [if_pos hok]
      have hstep : (xfer (dev_after_blocks xfer arg done dev0) arg done).2
          = dev_after_blocks xfer arg (done + 1) dev0 := rfl
      rw [hstep]
      obtain ⟨h1, h2, h3, h4, h5⟩ := ih (done + 1)
      refine ⟨by omega, by omega, ?_, ?_, ?_⟩
      · intro i hi1 hi2
        by_cases hd : i = done
        · rw [hd]; exact hok
        · exact h3 i (by omega) hi2
      · intro h; exact h4 (by omega)
      · intro h; exact h5 (by omega)
    · rw [if_neg hok]
      refine ⟨le_rfl, by omega, ?_, ?_, ?_⟩
      · intro i h1 h2; simp only at h2; omega
      · intro _; exact ⟨rfl, hok⟩
      · intro h; simp only at h; omega

/-- The return contract holds for the engine run with any per-block transfer. -/
theorem transfer_blocks_contract {σ : Type} (xfer : σ → Int → Nat → sd_rw_response_t × σ)
    (arg : Int) (dev : σ) (blocksize nblocks : Int) (hn : 0 ≤ nblocks) :
    rw_return_contract xfer arg dev blocksize nblocks
      (if blocksize ≠ SD_HC_FIXED_BLOCK_SIZE then
        (0, sd_rw_response_t.SD_RW_NOT_SUPPORTED, dev)
      else
        (((transfer_blocks xfer arg nblocks.toNat 0 dev).1 : Int),
          (transfer_blocks xfer arg nblocks.toNat 0 dev).2.1,
          (transfer_blocks xfer arg nblocks.toNat 0 dev).2.2)) := by
  have h512 : ((SD_HC_FIXED_BLOCK_SIZE : Nat) : Int) = 512 := by decide
  by_cases hb : blocksize = 512
  · have hb2 : ¬ blocksize ≠ ((SD_HC_FIXED_BLOCK_SIZE : Nat) : Int) := by
      rw [h512]; exact fun h => h hb
    rw [if_neg hb2]
    obtain ⟨_, h2, h3, h4, _⟩ := transfer_blocks_spec xfer arg dev nblocks.toNat 0
    have hd : dev_after_blocks xfer arg 0 dev = dev := rfl
    rw [hd] at h2 h3 h4
    have hto : ((nblocks.toNat : Nat) : Int) = nblocks := Int.toNat_of_nonneg hn
    refine ⟨by positivity, ?_, ?_, ?_⟩
    · show ((transfer_blocks xfer arg nblocks.toNat 0 dev).1 : Int) ≤ nblocks
      omega
    · intro i hi
      have hi2 : i < (transfer_blocks xfer arg nblocks.toNat 0 dev).1 := by
        have : (i : Int) < ((transfer_blocks xfer arg nblocks.toNat 0 dev).1 : Int) := hi
        omega
      exact ⟨hb, h3 i (by omega) hi2⟩
    · intro hlt
      have hlt2 : (transfer_blocks xfer arg nblocks.toNat 0 dev).1 < 0 + nblocks.toNat := by
        have : ((transfer_blocks xfer arg nblocks.toNat 0 dev).1 : Int) < nblocks := hlt
        omega
      obtain ⟨e1, e2⟩ := h4 hlt2
      refine ⟨e2, Or.inr ⟨hb, ?_⟩⟩
      show (transfer_blocks xfer arg nblocks.toNat 0 dev).2.1
        = status_of_block xfer arg dev
            (((transfer_blocks xfer arg nblocks.toNat 0 dev).1 : Nat) : Int).toNat
      rw [Int.toNat_ofNat]
      exact e1
  · have hb2 : blocksize ≠ ((SD_HC_FIXED_BLOCK_SIZE : Nat) : Int) := by
      rw [h512]; exact hb
    rw [if_pos hb2]
    refine ⟨le_rfl, hn, ?_, ?_⟩
    · intro i hi
      have : (i : Int) < 0 := hi
      omega
    · intro _
      exact ⟨fun h => sd_rw_response_t.noConfusion h, Or.inl ⟨hb, rfl, rfl⟩⟩

/-- C13: for `sdcard_spi_read_blocks` and `sdcard_spi_write_blocks` called with
`nblocks >= 0`, the returned count lies between 0 and `nblocks` and is the number of
blocks transferred completely before the first failing block; whenever it is below
`nblocks` the reported state is not `SD_RW_OK` and is the reason of that block. -/
theorem sdcard_spi_rw_blocks_return {σ : Type} (env : block_engine_env σ)
    (card : sd_card_t) (dev : σ) (blockaddr blocksize nblocks : Int) (hn : 0 ≤ nblocks) :
    rw_return_contract env.read_block (block_cmd_argument card blockaddr blocksize) dev
      blocksize nblocks (sdcard_spi_read_blocks env card dev blockaddr blocksize nblocks) ∧
    rw_return_contract env.write_block (block_cmd_argument card blockaddr blocksize) dev
      blocksize nblocks (sdcard_spi_write_blocks env card dev blockaddr blocksize nblocks) :=
  ⟨transfer_blocks_contract env.read_block _ dev blocksize nblocks hn,
   transfer_blocks_contract env.write_block _ dev blocksize nblocks hn⟩

/-- A card whose third read fails the CRC check and whose second write is rejected
instantiates C13: reading 4 blocks returns 2 with `SD_RW_CRC_MISMATCH`, writing 4 blocks
returns 1 with `SD_RW_WRITE_ERROR`, and both results meet the return contract. -/
theorem sdcard_spi_rw_blocks_return_witness :
    sdcard_spi_read_blocks faulty_blocks (card_v2 0) 0 8 512 4
      = (2, sd_rw_response_t.SD_RW_CRC_MISMATCH, 3) ∧
    sdcard_spi_write_blocks faulty_blocks (card_v2 0) 0 8 512 4
      = (1, sd_rw_response_t.SD_RW_WRITE_ERROR, 2) ∧
    rw_return_contract faulty_blocks.read_block (block_cmd_argument (card_v2 0) 8 512) 0
      512 4 (sdcard_spi_read_blocks faulty_blocks (card_v2 0) 0 8 512 4) ∧
    rw_return_contract faulty_blocks.write_block (block_cmd_argument (card_v2 0) 8 512) 0
      512 4 (sdcard_spi_write_blocks faulty_blocks (card_v2 0) 0 8 512 4) :=
  ⟨by decide, by decide,
    sdcard_spi_rw_blocks_return faulty_blocks (card_v2 0) 0 8 512 4 (by decide)⟩

end sdcard_spi

/-! ### DFPlayer receive state machine -/

namespace dfplayer

/-- One received byte, from a state with `rx_pos` at most `POS_END`: `rx_pos` stays at
most `POS_END`, and at most one byte of `rx_buf.raw` is written, at the old `rx_pos`,
which is then at most 8. -/
theorem on_rx_byte_step (dev : dfplayer_t) (data : Nat) (h : dev.rx_pos ≤ POS_END) :
    (_on_rx_byte dev data).rx_pos ≤ POS_END ∧
    ∃ ws, (_on_rx_byte dev data).raw_writes = dev.raw_writes ++ ws ∧
      ∀ i ∈ ws, i ≤ 8 := by
  have h9 : dev.rx_pos ≤ 9 := h
  unfold _on_rx_byte
  by_cases h1 : dev.rx_pos = POS_START ∧ data = START_BYTE
  · rw [if_pos h1]
    refine ⟨?_, [], by simp, by simp⟩
    have : dev.rx_pos = 0 := h1.1
    show dev.rx_pos + 1 ≤ 9
    omega
  · rw [if_neg h1]
    by_cases h2 : dev.rx_pos = POS_END
    · rw [if_pos h2]
      refine ⟨Nat.zero_le _, [], ?_, by simp⟩
      simp only [List.append_nil]
      split
      · split
        · split <;> rfl
        · rfl
      · rfl
    · rw [if_neg h2]
      have hne : dev.rx_pos ≠ 9 := h2
      refine ⟨?_, [dev.rx_pos], rfl, ?_⟩
      · show dev.rx_pos + 1 ≤ 9
        omega
      · intro i hi
        simp only [List.mem_singleton] at hi
        omega

/-- C25: starting from `rx_pos = 0`, after any sequence of received bytes `rx_pos` is
within `0..POS_END`, every index at which `rx_buf.raw` was written is at most 8, hence
inside the 10-byte packet buffer, and a byte received at `rx_pos = POS_END` resets
`rx_pos` to 0 whatever the byte and the checksum are. -/
theorem on_rx_byte_rx_pos_in_bounds (dev : dfplayer_t) (bytes : List Nat)
    (h0 : dev.rx_pos = 0) :
    (bytes.foldl _on_rx_byte dev).rx_pos ≤ POS_END ∧
    (∃ ws, (bytes.foldl _on_rx_byte dev).raw_writes = dev.raw_writes ++ ws ∧
      ∀ i ∈ ws, i ≤ 8 ∧ i < DFPLAYER_PKTLEN) ∧
    (∀ (d : dfplayer_t) (data : Nat), d.rx_pos = POS_END → (_on_rx_byte d data).rx_pos = 0) := by
  have inv : ∀ (bs : List Nat) (d : dfplayer_t), d.rx_pos ≤ POS_END →
      (bs.foldl _on_rx_byte d).rx_pos ≤ POS_END ∧
      ∃ ws, (bs.foldl _on_rx_byte d).raw_writes = d.raw_writes ++ ws ∧ ∀ i ∈ ws, i ≤ 8 := by
    intro bs
    induction bs with
    | nil => intro d hd; exact ⟨hd, [], by simp, by simp⟩
    | cons b bs ih =>
      intro d hd
      obtain ⟨s1, w1, hw1, hb1⟩ := on_rx_byte_step d b hd
      obtain ⟨s2, w2, hw2, hb2⟩ := ih (_on_rx_byte d b) s1
      refine ⟨s2, w1 ++ w2, ?_, ?_⟩
      · rw [List.foldl_cons, hw2, hw1, List.append_assoc]
      · intro i hi
        rcases List.mem_append.mp hi with hi | hi
        · exact hb1 i hi
        · exact hb2 i hi
  obtain ⟨s, ws, hws, hb⟩ := inv bytes dev (by rw [h0]; exact Nat.zero_le _)
  refine ⟨s, ⟨ws, hws, fun i hi => ⟨hb i hi, ?_⟩⟩, ?_⟩
  · have := hb i hi
    show i < 10
    omega
  · intro d data hd
    unfold _on_rx_byte
    have h1 : ¬ (d.rx_pos = POS_START ∧ data = START_BYTE) := by
      rw [hd]; intro h; exact absurd h.1 (by decide)
    rw [if_neg h1, if_pos hd]

/-- The state after `dfplayer_init` and a complete reply frame instantiate C25: after
the ten bytes `rx_pos` is 0 again and the bytes after the start byte were written at
the indices 1 to 8. -/
theorem on_rx_byte_rx_pos_in_bounds_witness :
    dev_after_init.rx_pos = 0 ∧
    ([0x7e, 0xff, 0x06, 0x41, 0x00, 0x00, 0x00, 0xfe, 0xba, 0xef].foldl
      _on_rx_byte dev_after_init).rx_pos ≤ POS_END ∧
    ([0x7e, 0xff, 0x06, 0x41, 0x00, 0x00, 0x00, 0xfe, 0xba, 0xef].foldl
      _on_rx_byte dev_after_init).raw_writes = [1, 2, 3, 4, 5, 6, 7, 8] :=
  ⟨rfl,
    (on_rx_byte_rx_pos_in_bounds dev_after_init
      [0x7e, 0xff, 0x06, 0x41, 0x00, 0x00, 0x00, 0xfe, 0xba, 0xef] rfl).1,
    by decide⟩

/-- C24 evaluated where it fails: at `rx_pos = 0` the byte `0x55`, which is not
`START_BYTE`, is not discarded: it is stored in `rx_buf.raw[0]` and `rx_pos` becomes 1.
A frame whose first byte is `0x00` instead of `START_BYTE` is then accepted like a
proper one: its event is posted. -/
theorem on_rx_byte_keeps_non_start_byte :
    dev_after_init.rx_pos = 0 ∧ 0x55 ≠ START_BYTE ∧
    (_on_rx_byte dev_after_init 0x55).rx_pos = 1 ∧
    (_on_rx_byte dev_after_init 0x55).rx_buf = [0x55, 0, 0, 0, 0, 0, 0, 0, 0, 0] ∧
    (_on_rx_byte dev_after_init 0x55).rx_buf ≠ dev_after_init.rx_buf ∧
    ([0x00, 0xff, 0x06, 0x41, 0x00, 0x00, 0x00, 0xfe, 0xba, 0xef].foldl
      _on_rx_byte dev_after_init).posted = [⟨EVENT_USED, CMD_REPLY, 0⟩] := by
  decide

end dfplayer

/-! ### DS18 temperature conversion -/

namespace ds18

set_option maxRecDepth 100000

/-- For the readings from 0 to 2000 (0 to +125 degrees Celsius) the conversion gives
`r * 625 / 100`. -/
theorem ds18_temperature_nonneg :
    ∀ b2 < 8, ∀ b1 < 256, ds18_raw b1 b2 ≤ 2000 →
      ds18_temperature b1 b2 = Int.tdiv (ds18_raw b1 b2 * 625) 100 := by
  decide

/-- C21 evaluated where it fails: the scratchpad bytes `b1 = 0x90`, `b2 = 0xFC` are the
reading -880 (-55 degrees Celsius). `ds18_read` returns `DS18_OK` but stores 10884 and
not `-880 * 625 / 100 = -5500`: `b2 << 8 | b1` is the non-negative `int` 64656, and the
quotient 404100 is cut to 16 bits. -/
theorem ds18_read_negative_reading :
    ds18_raw 0x90 0xFC = -880 ∧
    Int.tdiv (ds18_raw 0x90 0xFC * 625) 100 = -5500 ∧
    ds18_read sensor_env (scratchpad_bits 0x90 0xFC) = (DS18_OK, some 10884, []) ∧
    ds18_temperature 0x90 0xFC ≠ Int.tdiv (ds18_raw 0x90 0xFC * 625) 100 := by
  decide

end ds18

/-! ### Gorm GATT server -/

namespace gorm_gatt

/-- C22 evaluated where it fails: a read request (opcode 0x0a) for the unknown handle
0x0042 is answered with the error response `01 0b 42 00 0a`, and one for the write-only
characteristic value at handle 5 with `01 0b 05 00 02`: byte 1 is `BLE_ATT_READ_RESP`
(0x0b), which `_on_read_req` has stored in `data[0]` before it calls `_error`, and not
the opcode of the request. A write request for the unknown handle gets `01 12 42 00
0a`, with its own opcode in byte 1. -/
theorem on_read_req_error_opcode :
    buf_of_list [0x0a, 0x42, 0x00] 0 = BLE_ATT_READ_REQ ∧
    (gorm_gatt_on_data (table_env mixed_table) (buf_of_list [0x0a, 0x42, 0x00]) 3).bind
        gatt_out.reply
      = some [BLE_ATT_ERROR_RESP, BLE_ATT_READ_RESP, 0x42, 0x00,
          BLE_ATT_ATTRIBUTE_NOT_FOUND] ∧
    (gorm_gatt_on_data (table_env mixed_table) (buf_of_list [0x0a, 0x05, 0x00]) 3).bind
        gatt_out.reply
      = some [BLE_ATT_ERROR_RESP, BLE_ATT_READ_RESP, 0x05, 0x00,
          BLE_ATT_READ_NOT_PERMITTED] ∧
    BLE_ATT_READ_RESP ≠ BLE_ATT_READ_REQ ∧
    (gorm_gatt_on_data (table_env mixed_table) (buf_of_list [0x12, 0x42, 0x00, 0x01]) 4).bind
        gatt_out.reply
      = some [BLE_ATT_ERROR_RESP, BLE_ATT_WRITE_REQ, 0x42, 0x00,
          BLE_ATT_ATTRIBUTE_NOT_FOUND] := by
  decide

/-- C23 evaluated where it fails: on a table with a 16-bit UUID service followed by a
128-bit UUID service, the request for all primary services from handle 1 to 0xffff is
answered with 28 bytes: `data[1]` is 6, the first entry has 6 bytes and the second 20.
The length is above `GORM_GATT_DEFAULT_MTU` and is not `2 + n * 6` for any `n`. -/
theorem on_read_by_group_type_req_mixed_uuid_lengths :
    (_on_read_by_group_type_req (table_env mixed_table)
        (buf_of_list [0x10, 0x01, 0x00, 0xff, 0xff, 0x00, 0x28]) 7).map
        (fun r => (r.data 0, r.data 1, r.reply_len))
      = some (BLE_ATT_READ_BY_GROUP_TYPE_RESP, 6, some 28) ∧
    (gorm_gatt_on_data (table_env mixed_table)
        (buf_of_list [0x10, 0x01, 0x00, 0xff, 0xff, 0x00, 0x28]) 7).bind gatt_out.reply
      = some [0x11, 0x06, 0x01, 0x00, 0x05, 0x00, 0x00, 0x18, 0x06, 0x00, 0x06, 0x00,
          0xab, 0xab, 0xab, 0xab, 0xab, 0xab, 0xab, 0xab, 0xab, 0xab, 0xab, 0xab,
          0x01, 0x00, 0xab, 0xab] ∧
    GORM_GATT_DEFAULT_MTU < 28 ∧
    (∀ n < 28, 2 + n * 6 ≠ 28) := by
  decide

end gorm_gatt
